import Mathlib

/-!
# Persistent terminal sessions of `src/components/Shell.jsx`

A shallow embedding of the `Shell` component: the process-wide session map
`shellSessions`, the refs and state of a component instance, the sockets and
terminal surfaces it creates, and one function per handler, effect and timer
callback of the source.  Side effects on external collaborators (terminal
surface, socket, configuration fetch) are recorded in an ordered trace.

Strings are Lean strings.  JavaScript strings are sequences of UTF-16 code
units; for strings without lone surrogates `String.prototype.includes` on
code units and the infix test on code points agree, so `jsIncludes` below is
the infix test on the list of characters.
-/

namespace Shell

/-! ## JavaScript helpers -/

/-- Truthiness of a value that is `null`/`undefined` or a string. -/
def truthy : Option String → Bool
  | some s => !(s == "")
  | none => false

/-- The JavaScript expression `a || b` for a possibly absent string `a` and a string `b`. -/
def orString (a : Option String) (b : String) : String :=
  match a with
  | some s => if s == "" then b else s
  | none => b

/-- The JavaScript expression `a || b` for two possibly absent strings
(the result is `b` itself when `a` is falsy). -/
def orOption (a b : Option String) : Option String :=
  if truthy a then a else b

/-- Whether `needle` is a prefix of `hay`. -/
def isPrefixChars : List Char → List Char → Bool
  | [], _ => true
  | _ :: _, [] => false
  | a :: as, b :: bs => a == b && isPrefixChars as bs

/-- Whether `needle` occurs in `hay` as a contiguous block. -/
def includesChars (needle : List Char) : List Char → Bool
  | [] => needle.isEmpty
  | b :: bs => isPrefixChars needle (b :: bs) || includesChars needle bs

/-- The method `hay.includes(needle)` of `String.prototype`. -/
def jsIncludes (hay needle : String) : Bool :=
  includesChars needle.data hay.data

/-! ## Props -/

/-- The fields of `selectedProject` that the component reads. -/
structure Project where
  name : String
  fullPath : Option String
  path : Option String
  deriving DecidableEq, Repr

/-- The fields of `selectedSession` that the component reads. -/
structure Session where
  id : Option String
  sessionId : Option String
  deriving DecidableEq, Repr

/-- The expression `selectedSession?.id`. -/
def sessionIdOf (selectedSession : Option Session) : Option String :=
  selectedSession.bind (fun s => s.id)

/-- Lines 259 and 469: `selectedSession?.id || "project-" + selectedProject.name`. -/
def sessionKey (selectedSession : Option Session) (selectedProject : Project) : String :=
  orString (sessionIdOf selectedSession) ("project-" ++ selectedProject.name)

/-! ## The session map `shellSessions` -/

/-- Handle of a terminal surface (an `xterm` `Terminal` object). -/
abbrev TermId := Nat

/-- Handle of a `WebSocket` object. -/
abbrev SockId := Nat

/-- Identity of a mounted instance of the component. -/
abbrev CtlId := Nat

/-- The object stored by the cleanup of the mount effect (lines 472-477).
The fit addon created with a terminal is identified by that terminal's handle. -/
structure Record where
  terminal : TermId
  fitAddon : Option TermId
  ws : Option SockId
  isConnected : Bool
  deriving DecidableEq, Repr

/-- A JavaScript `Map` from strings to records, in insertion order. -/
abbrev Registry := List (String × Record)

/-- The method `Map.prototype.get`. -/
def Registry.get : Registry → String → Option Record
  | [], _ => none
  | (k, v) :: rest, key => if k == key then some v else Registry.get rest key

/-- The method `Map.prototype.set`: an existing key keeps its position. -/
def Registry.set : Registry → String → Record → Registry
  | [], key, v => [(key, v)]
  | (k, v0) :: rest, key, v =>
    if k == key then (k, v) :: rest else (k, v0) :: Registry.set rest key v

/-- The method `Map.prototype.delete`. -/
def Registry.delete : Registry → String → Registry
  | [], _ => []
  | (k, v) :: rest, key =>
    if k == key then rest else (k, v) :: Registry.delete rest key

/-- The expression `Array.from(shellSessions.keys())`. -/
def Registry.keys (r : Registry) : List String :=
  r.map Prod.fst

/-- Lines 196-199 and 240-245: delete every key that includes the project's name. -/
def purgeProject (r : Registry) (projectName : String) : Registry :=
  ((Registry.keys r).filter (fun key => jsIncludes key projectName)).foldl
    (fun acc key => Registry.delete acc key) r

/-! ## Endpoint resolution (lines 517-544) -/

/-- The fields of `window.location` that the component reads. -/
structure Location where
  protocol : String
  hostname : String
  port : String
  deriving DecidableEq, Repr

/-- How the request `fetch("/api/config")` and the parsing of its body ended:
`failed` when the promise rejected or the body was not JSON, otherwise the
`wsUrl` field of the parsed body (absent when it is not a string). -/
inductive FetchResult
  | failed
  | config (wsUrl : Option String)
  deriving DecidableEq, Repr

/-- Lines 530-533 and 536-539: the same-host base URL. -/
def sameHostBase (loc : Location) : String :=
  (if loc.protocol == "https:" then "wss:" else "ws:") ++ "//" ++ loc.hostname ++ ":" ++
    (if loc.port == "4009" then "4008" else loc.port)

/-- Lines 518-540: the value of `wsBaseUrl` after the inner `try`/`catch`.
Calling `includes` on an absent `wsUrl` throws inside the `try`, which lands in
the `catch` branch. -/
def resolveBase (r : FetchResult) (loc : Location) : String :=
  match r with
  | .failed => sameHostBase loc
  | .config none => sameHostBase loc
  | .config (some u) =>
    if jsIncludes u "localhost" && !jsIncludes loc.hostname "localhost" then sameHostBase loc
    else u

/-- Upper-case hexadecimal digit. -/
def hexDigit (n : Nat) : Char :=
  if n < 10 then Char.ofNat (48 + n) else Char.ofNat (55 + n)

/-- The UTF-8 encoding of a code point. -/
def utf8Bytes (n : Nat) : List Nat :=
  if n < 0x80 then [n]
  else if n < 0x800 then [0xC0 + n / 64, 0x80 + n % 64]
  else if n < 0x10000 then [0xE0 + n / 4096, 0x80 + (n / 64) % 64, 0x80 + n % 64]
  else [0xF0 + n / 262144, 0x80 + (n / 4096) % 64, 0x80 + (n / 64) % 64, 0x80 + n % 64]

/-- Characters that `encodeURIComponent` leaves alone: letters, digits and `-_.!~*'()`. -/
def isUnreserved (ch : Char) : Bool :=
  ch.isAlphanum || [45, 95, 46, 33, 126, 42, 39, 40, 41].contains ch.toNat

/-- The encoding of one character by `encodeURIComponent`. -/
def encodeChar (ch : Char) : List Char :=
  if isUnreserved ch then [ch]
  else (utf8Bytes ch.toNat).flatMap (fun b => ['%', hexDigit (b / 16), hexDigit (b % 16)])

/-- The global function `encodeURIComponent`. -/
def encodeURIComponent (s : String) : String :=
  String.mk (s.data.flatMap encodeChar)

/-- Line 543: the socket endpoint. -/
def socketUrl (base token : String) : String :=
  base ++ "/shell?token=" ++ encodeURIComponent token

/-- Line terminators, which `.` of a regular expression does not match. -/
def isLineTerminator (ch : Char) : Bool :=
  ch.toNat == 10 || ch.toNat == 13 || ch.toNat == 0x2028 || ch.toNat == 0x2029

/-- Replace the first match of `/token=.*/` by `token=[REDACTED]`. -/
def redactChars : List Char → List Char
  | [] => []
  | ch :: rest =>
    if isPrefixChars "token=".data (ch :: rest) then
      "token=[REDACTED]".data ++ (rest.drop 5).dropWhile (fun x => !isLineTerminator x)
    else ch :: redactChars rest

/-- Line 544: the text of the URL that is logged. -/
def redactedUrl (url : String) : String :=
  String.mk (redactChars url.data)

/-! ## Inspection of output for URLs (lines 596-604) -/

/-- Characters of the class `[0-9;]`. -/
def isSgrParam (ch : Char) : Bool :=
  ch.isDigit || ch == ';'

/-- Length of the match of `/\x1b\[[0-9;]*m/` at the head of the list, if any. -/
def matchSgr (l : List Char) : Option Nat :=
  match l with
  | esc :: '[' :: rest =>
    if esc.toNat == 27 then
      match rest.dropWhile isSgrParam with
      | 'm' :: _ => some (3 + (rest.takeWhile isSgrParam).length)
      | _ => none
    else none
  | _ => none

/-- The call `replace(/\x1b\[[0-9;]*m/g, "")`; `skip` characters of a match
are still to be dropped. -/
def stripAnsiChars (skip : Nat) : List Char → List Char
  | [] => []
  | ch :: rest =>
    match skip with
    | k + 1 => stripAnsiChars k rest
    | 0 =>
      match matchSgr (ch :: rest) with
      | some n => stripAnsiChars (n - 1) rest
      | none => ch :: stripAnsiChars 0 rest

/-- The class `\s` of JavaScript regular expressions. -/
def isJsSpace (ch : Char) : Bool :=
  let n := ch.toNat
  (9 ≤ n && n ≤ 13) || n == 32 || n == 0xA0 || n == 0x1680 || (0x2000 ≤ n && n ≤ 0x200A) ||
    n == 0x2028 || n == 0x2029 || n == 0x202F || n == 0x205F || n == 0x3000 || n == 0xFEFF

/-- Characters of the class `[^\s\x1b\x07]`. -/
def isUrlChar (ch : Char) : Bool :=
  !(isJsSpace ch || ch.toNat == 27 || ch.toNat == 7)

/-- The match of `/(https?:\/\/[^\s\x1b\x07]+)/` at the head of the list, if any. -/
def matchUrl (l : List Char) : Option (List Char) :=
  let n := if isPrefixChars "https://".data l then 8
    else if isPrefixChars "http://".data l then 7 else 0
  if n == 0 then none
  else
    let body := (l.drop n).takeWhile isUrlChar
    if body.isEmpty then none else some (l.take n ++ body)

/-- The loop of lines 602-604: successive matches of the global regular
expression; `skip` characters of the last match are still to be passed. -/
def findUrls (skip : Nat) : List Char → List String
  | [] => []
  | ch :: rest =>
    match skip with
    | k + 1 => findUrls k rest
    | 0 =>
      match matchUrl (ch :: rest) with
      | some u => String.mk u :: findUrls (u.length - 1) rest
      | none => findUrls 0 rest

/-- The array `urls` of line 600 after the loop. -/
def inspectUrls (output : String) : List String :=
  findUrls 0 (stripAnsiChars 0 output.data)

/-! ## Sockets, surfaces and component instances -/

/-- The property `readyState` of a `WebSocket`. -/
inductive ReadyState
  | connecting
  | isOpen
  | closing
  | closed
  deriving DecidableEq, Repr

/-- Client-to-server frames, the arguments of `JSON.stringify` at the `send` calls. -/
inductive Frame
  | init (projectPath : Option String) (sessionId : Option String) (hasSession : Bool)
      (cols rows : Nat)
  | input (data : String)
  | resize (cols rows : Nat)
  deriving DecidableEq, Repr

/-- A field of a parsed inbound message: a string, or anything else (absent included). -/
inductive Payload
  | str (s : String)
  | other
  deriving DecidableEq, Repr

/-- The text of an inbound message as `JSON.parse` sees it: not JSON, the
literal `null`, or a value with the fields `type`, `data` and `url`
(`type` is `none` when the value has no string under `type`). -/
inductive Inbound
  | malformed
  | null
  | parsed (type : Option String) (data : Payload) (url : Payload)
  deriving DecidableEq, Repr

/-- Calls made on external collaborators, in program order. -/
inductive Effect
  | newTerminal (t : TermId) (fontSize : Nat)
  | termOpen (t : TermId)
  | termDetach (t : TermId)
  | termWrite (t : TermId) (bytes : String)
  | termClear (t : TermId)
  | termDispose (t : TermId)
  | termFit (t : TermId) (cols rows : Nat)
  | termFontSize (t : TermId) (fontSize : Nat)
  | observe (c : CtlId)
  | unobserve (c : CtlId)
  | fetchConfig (token : String)
  | logUrl (text : String)
  | newSocket (s : SockId) (url : String)
  | sockClose (s : SockId)
  | sockSend (s : SockId) (frame : Frame)
  | windowOpen (url : Payload)
  deriving DecidableEq, Repr

/-- A terminal surface: its dimensions, whether `open` was called on it,
whether it was disposed, and the instance whose effect run registered the
`onData` and key handlers on it (lines 391-441). -/
structure TerminalObj where
  cols : Nat
  rows : Nat
  opened : Bool
  disposed : Bool
  dataOwner : Option CtlId
  deriving DecidableEq, Repr

/-- A socket: its URL and state, the instance whose refs and state setters its
handlers close over, the props of the render that started the attempt, and
whether its `close` event has been delivered. -/
structure SocketObj where
  url : String
  readyState : ReadyState
  owner : CtlId
  project : Option Project
  session : Option Session
  closeDelivered : Bool
  deriving DecidableEq, Repr

/-- The values the cleanup function of lines 464-482 closes over: the props
and the `isConnected` of the render whose effect run returned it.  The refs
are read when the cleanup runs. -/
structure Cleanup where
  selectedProject : Option Project
  selectedSession : Option Session
  isConnected : Bool
  deriving DecidableEq, Repr

/-- One instance of the component: props, refs (lines 33-36), state (lines
37-46), the cleanup returned by the last run of the mount effect, and
whether the `ResizeObserver` of that run is observing. -/
structure Controller where
  selectedProject : Option Project
  selectedSession : Option Session
  isActive : Bool
  terminal : Option TermId
  fitAddon : Option TermId
  ws : Option SockId
  isConnected : Bool
  isInitialized : Bool
  isRestarting : Bool
  lastSessionId : Option String
  isConnecting : Bool
  isMobile : Bool
  fontSize : Nat
  showMobileToolbar : Bool
  cleanup : Option Cleanup
  observing : Bool
  mounted : Bool
  deriving DecidableEq, Repr

/-- A configuration request whose continuation (lines 525-641) has not run:
the instance and the render whose `connectWebSocket` issued it. -/
structure Fetch where
  owner : CtlId
  token : String
  project : Option Project
  session : Option Session
  deriving DecidableEq, Repr

/-- Pending `setTimeout` callbacks, named by the lines that schedule them. -/
inductive Timer
  | fontFit (c : CtlId)
  | reuseFit (c : CtlId)
  | freshFit (c : CtlId)
  | freshFitResize (c : CtlId)
  | observerFit (c : CtlId)
  | activeFit (c : CtlId)
  | openFit (s : SockId)
  | initSend (s : SockId)
  | initResize (s : SockId)
  | restartDone (c : CtlId)
  deriving DecidableEq, Repr

/-- The state of the page: the session map, every instance ever mounted,
every surface and socket ever constructed, pending continuations and the
trace of external calls. -/
structure World where
  shellSessions : Registry
  controllers : CtlId → Controller
  nextCtl : Nat
  terminals : TermId → TerminalObj
  nextTerm : Nat
  sockets : SockId → SocketObj
  nextSock : Nat
  fetches : List Fetch
  timers : List Timer
  trace : List Effect

/-- State of an instance before its first render (lines 33-48). -/
def Controller.initial (project : Option Project) (session : Option Session)
    (isActive : Bool) : Controller :=
  { selectedProject := project, selectedSession := session, isActive := isActive,
    terminal := none, fitAddon := none, ws := none,
    isConnected := false, isInitialized := false, isRestarting := false,
    lastSessionId := none, isConnecting := false,
    isMobile := false, fontSize := 14, showMobileToolbar := false,
    cleanup := none, observing := false, mounted := false }

/-- The page before any instance is mounted: `shellSessions` is empty (line 30). -/
def World.initial : World :=
  { shellSessions := [],
    controllers := fun _ => Controller.initial none none false,
    nextCtl := 0,
    terminals := fun _ => ⟨80, 24, false, false, none⟩,
    nextTerm := 0,
    sockets := fun _ => ⟨"", .closed, 0, none, none, true⟩,
    nextSock := 0,
    fetches := [], timers := [], trace := [] }

/-- Pointwise update of a table indexed by handles. -/
def upd {α : Type} (f : Nat → α) (i : Nat) (v : α) : Nat → α :=
  fun j => if j = i then v else f j

/-- Apply a change to the state and refs of instance `c`. -/
def World.setCtl (w : World) (c : CtlId) (f : Controller → Controller) : World :=
  { w with controllers := upd w.controllers c (f (w.controllers c)) }

/-- Record an external call. -/
def World.emit (w : World) (e : Effect) : World :=
  { w with trace := w.trace ++ [e] }

/-- Schedule a `setTimeout` callback. -/
def World.schedule (w : World) (t : Timer) : World :=
  { w with timers := w.timers ++ [t] }

/-- Replace the session map. -/
def World.setSessions (w : World) (r : Registry) : World :=
  { w with shellSessions := r }

/-- Apply a change to surface `t`. -/
def World.setTerm (w : World) (t : TermId) (f : TerminalObj → TerminalObj) : World :=
  { w with terminals := upd w.terminals t (f (w.terminals t)) }

/-- Apply a change to socket `s`. -/
def World.setSock (w : World) (s : SockId) (f : SocketObj → SocketObj) : World :=
  { w with sockets := upd w.sockets s (f (w.sockets s)) }

/-- Allocate the next surface handle. -/
def World.newTerm (w : World) (o : TerminalObj) : World :=
  { w with terminals := upd w.terminals w.nextTerm o, nextTerm := w.nextTerm + 1 }

/-- Allocate the next socket handle. -/
def World.newSock (w : World) (o : SocketObj) : World :=
  { w with sockets := upd w.sockets w.nextSock o, nextSock := w.nextSock + 1 }

/-- Allocate the next instance. -/
def World.newCtl (w : World) (k : Controller) : World :=
  { w with controllers := upd w.controllers w.nextCtl k, nextCtl := w.nextCtl + 1 }

/-- Add a pending configuration request. -/
def World.addFetch (w : World) (f : Fetch) : World :=
  { w with fetches := w.fetches ++ [f] }

/-- Remove the pending configuration request at position `i`. -/
def World.dropFetch (w : World) (i : Nat) : World :=
  { w with fetches := w.fetches.eraseIdx i }

/-- Remove the pending timer at position `i`. -/
def World.dropTimer (w : World) (i : Nat) : World :=
  { w with timers := w.timers.eraseIdx i }

/-- The method `fit` of the fit addon loaded into surface `t`: the surface
takes the dimensions measured for its host view. -/
def World.fit (w : World) (t : TermId) (dims : Nat × Nat) : World :=
  (w.setTerm t (fun o => { o with cols := dims.1, rows := dims.2 })).emit
    (.termFit t dims.1 dims.2)

/-- The method `close` of socket `s`. -/
def World.closeSocket (w : World) (s : SockId) : World :=
  let rs := match (w.sockets s).readyState with
    | .connecting => ReadyState.closing
    | .isOpen => ReadyState.closing
    | r => r
  (w.setSock s (fun so => { so with readyState := rs })).emit (.sockClose s)

/-- The test `ws.current && ws.current.readyState === WebSocket.OPEN` on the refs of `c`. -/
def World.openSocketOf (w : World) (c : CtlId) : Option SockId :=
  match (w.controllers c).ws with
  | some s => if (w.sockets s).readyState = .isOpen then some s else none
  | none => none

/-! ## Messages written to the surface -/

/-- Line 157. -/
def authRequiredMessage : String :=
  "\x1b[1;31mAuthentication required. Please log in first.\x1b[0m\r\n"

/-- Lines 184 and 625: clear screen and move the cursor home. -/
def resetSequence : String :=
  "\x1b[2J\x1b[H"

/-- Line 627. -/
def closedMessage (reason : String) (code : Nat) : String :=
  "\x1b[1;31mConnection closed: " ++
    orString (some reason) ("Unknown error (code: " ++ toString code ++ ")") ++ "\x1b[0m\r\n"

/-- Line 639. -/
def errorMessage : String :=
  "\r\n\x1b[1;31mConnection error. Please check console for details.\x1b[0m\r\n"

/-- Line 647. -/
def failedMessage (message : String) : String :=
  "\x1b[1;31mFailed to connect: " ++ message ++ "\x1b[0m\r\n"

/-! ## Connect (lines 149-171 and 506-650)

A handler reads state and props from the render that created it (`snap`) and
refs from the instance at the time it runs. -/

/-- Lines 506-524: `connectWebSocket` up to the `await` of the configuration
request.  `snap` is the render whose `connectToShell` made the call. -/
def connectWebSocket (c : CtlId) (snap : Controller) (token : Option String) (w : World) :
    World :=
  if snap.isConnecting || snap.isConnected then w
  else
    match token with
    | none => w
    | some tok =>
      if tok == "" then w
      else
        (w.emit (.fetchConfig tok)).addFetch ⟨c, tok, snap.selectedProject, snap.selectedSession⟩

/-- Lines 149-171: `connectToShell`; `token` is `localStorage.getItem("auth-token")`. -/
def connectToShell (c : CtlId) (token : Option String) (w : World) : World :=
  let snap := w.controllers c
  if !truthy token then
    match snap.terminal with
    | some t => w.emit (.termWrite t authRequiredMessage)
    | none => w
  else if !snap.isInitialized || snap.isConnected || snap.isConnecting then w
  else connectWebSocket c snap token (w.setCtl c (fun k => { k with isConnecting := true }))

/-- Lines 525-649: the continuation of `connectWebSocket` once the
configuration request has settled.  `ctorError` is the message of the
exception thrown by `new WebSocket(wsUrl)`, if it throws. -/
def connectContinue (f : Fetch) (r : FetchResult) (loc : Location) (ctorError : Option String)
    (w : World) : World :=
  let url := socketUrl (resolveBase r loc) f.token
  let w1 := w.emit (.logUrl (redactedUrl url))
  match ctorError with
  | some message =>
    let w2 := w1.setCtl f.owner (fun k => { k with isConnected := false, isConnecting := false })
    match (w2.controllers f.owner).terminal with
    | some t => w2.emit (.termWrite t (failedMessage message))
    | none => w2
  | none =>
    let s := w1.nextSock
    let w2 := w1.newSock ⟨url, .connecting, f.owner, f.project, f.session, false⟩
    (w2.emit (.newSocket s url)).setCtl f.owner (fun k => { k with ws := some s })

/-! ## Socket handlers (lines 548-641) -/

/-- Lines 548-554: `onopen` of socket `s`, up to scheduling the first timer. -/
def onopen (s : SockId) (w : World) : World :=
  let c := (w.sockets s).owner
  (w.setCtl c (fun k => { k with isConnected := true, isConnecting := false })).schedule
    (.openFit s)

/-- Lines 591-615: `onmessage` of socket `s`.  Reading `type` of `null`,
calling `replace` on a payload that is not a string and calling `write` on an
absent surface throw inside the `try`; the `catch` is empty. -/
def onmessage (s : SockId) (msg : Inbound) (w : World) : World :=
  let c := (w.sockets s).owner
  match msg with
  | .malformed => w
  | .null => w
  | .parsed type data url =>
    if type = some "output" then
      match data with
      | .str output =>
        let _urls := inspectUrls output
        match (w.controllers c).terminal with
        | some t => w.emit (.termWrite t output)
        | none => w
      | .other => w
    else if type = some "url_open" then w.emit (.windowOpen url)
    else w

/-- Lines 617-632: `onclose` of socket `s`. -/
def onclose (s : SockId) (code : Nat) (reason : String) (w : World) : World :=
  let c := (w.sockets s).owner
  let w1 := w.setCtl c (fun k => { k with isConnected := false, isConnecting := false })
  match (w1.controllers c).terminal with
  | some t =>
    let w2 := (w1.emit (.termClear t)).emit (.termWrite t resetSequence)
    if code != 1000 then w2.emit (.termWrite t (closedMessage reason code)) else w2
  | none => w1

/-- Lines 634-641: `onerror` of socket `s`. -/
def onerror (s : SockId) (w : World) : World :=
  let c := (w.sockets s).owner
  let w1 := w.setCtl c (fun k => { k with isConnected := false, isConnecting := false })
  match (w1.controllers c).terminal with
  | some t => w1.emit (.termWrite t errorMessage)
  | none => w1

/-! ## Disconnect and Restart (lines 174-226) -/

/-- Lines 174-189: `disconnectFromShell`. -/
def disconnectFromShell (c : CtlId) (w : World) : World :=
  let w1 := match (w.controllers c).ws with
    | some s => (w.closeSocket s).setCtl c (fun k => { k with ws := none })
    | none => w
  let w2 := match (w1.controllers c).terminal with
    | some t => (w1.emit (.termClear t)).emit (.termWrite t resetSequence)
    | none => w1
  w2.setCtl c (fun k => { k with isConnected := false, isConnecting := false })

/-- Lines 192-226: `restartShell`.  The button that calls it is rendered only
while `selectedProject` is present (line 653). -/
def restartShell (c : CtlId) (w : World) : World :=
  match (w.controllers c).selectedProject with
  | none => w
  | some p =>
    let w0 := w.setCtl c (fun k => { k with isRestarting := true })
    let w1 := w0.setSessions (purgeProject w0.shellSessions p.name)
    let w2 := match (w1.controllers c).ws with
      | some s => (w1.closeSocket s).setCtl c (fun k => { k with ws := none })
      | none => w1
    let w3 := match (w2.controllers c).terminal with
      | some t =>
        ((w2.setTerm t (fun o => { o with disposed := true })).emit (.termDispose t)).setCtl c
          (fun k => { k with terminal := none, fitAddon := none })
      | none => w2
    (w3.setCtl c (fun k => { k with isConnected := false, isInitialized := false })).schedule
      (.restartDone c)

/-! ## Effects (lines 229-503) -/

/-- Lines 240-245: the purge of the session-change effect, one key at a time. -/
def purgeEach (r : Registry) (projectName : String) : Registry :=
  (Registry.keys r).foldl
    (fun acc key => if jsIncludes key projectName then Registry.delete acc key else acc) r

/-- Lines 229-249: the session-change effect, run with the render `snap`.
With `selectedProject` absent the callback of line 242 throws at the first
key, before line 248. -/
def sessionChangeEffect (c : CtlId) (snap : Controller) (w : World) : World :=
  let currentSessionId : Option String :=
    if truthy (sessionIdOf snap.selectedSession) then sessionIdOf snap.selectedSession else none
  if snap.lastSessionId != none && snap.lastSessionId != currentSessionId
      && snap.isInitialized then
    let w1 := disconnectFromShell c w
    match snap.selectedProject with
    | some p =>
      (w1.setSessions (purgeEach w1.shellSessions p.name)).setCtl c
        (fun k => { k with lastSessionId := currentSessionId })
    | none =>
      if w1.shellSessions.isEmpty then
        w1.setCtl c (fun k => { k with lastSessionId := currentSessionId })
      else w1
  else w.setCtl c (fun k => { k with lastSessionId := currentSessionId })

/-- Lines 309-482: the fresh branch of the mount effect, which returns the
cleanup function. -/
def createSurface (c : CtlId) (snap : Controller) (p : Project) (w : World) : World :=
  let t := w.nextTerm
  let w1 := w.newTerm ⟨80, 24, true, false, some c⟩
  let w2 := (w1.emit (.newTerminal t snap.fontSize)).emit (.termOpen t)
  let w3 := ((w2.schedule (.freshFit c)).schedule (.freshFitResize c)).emit (.observe c)
  w3.setCtl c (fun k => { k with
    terminal := some t, fitAddon := some t, isInitialized := true, observing := true,
    cleanup := some ⟨some p, snap.selectedSession, snap.isConnected⟩ })

/-- Lines 252-483: one run of the mount effect with the render `snap`.  The
host element of line 811 is rendered exactly when `selectedProject` is
present, so `terminalRef.current` is non-null at effect time exactly then.
`reattachThrows` tells whether re-attaching the stored surface (lines
273-277) throws.  Every `return` other than the last one returns no cleanup. -/
def mountEffect (c : CtlId) (snap : Controller) (reattachThrows : Bool) (w : World) : World :=
  match snap.selectedProject with
  | none => w.setCtl c (fun k => { k with cleanup := none })
  | some p =>
    if snap.isRestarting then w.setCtl c (fun k => { k with cleanup := none })
    else
      let key := sessionKey snap.selectedSession p
      match w.shellSessions.get key, (w.controllers c).terminal with
      | some r, none =>
        let w1 := w.setCtl c (fun k => { k with
          terminal := some r.terminal, fitAddon := r.fitAddon, ws := r.ws,
          isConnected := r.isConnected })
        let w2 := if (w1.terminals r.terminal).opened then w1.emit (.termDetach r.terminal)
          else w1
        if reattachThrows then
          createSurface c snap p
            ((w2.setSessions (w2.shellSessions.delete key)).setCtl c
              (fun k => { k with terminal := none, fitAddon := none, ws := none }))
        else
          let w3 := w2.setTerm r.terminal (fun o => { o with opened := true })
          ((w3.emit (.termOpen r.terminal)).schedule (.reuseFit c)).setCtl c
            (fun k => { k with isInitialized := true, cleanup := none })
      | _, some _ => w.setCtl c (fun k => { k with cleanup := none })
      | none, none => createSurface c snap p w

/-- Lines 464-482: the cleanup returned by the last run of the mount effect,
if that run returned one. -/
def runCleanup (c : CtlId) (w : World) : World :=
  let k := w.controllers c
  match k.cleanup with
  | none => w
  | some cl =>
    let w1 := (w.emit (.unobserve c)).setCtl c
      (fun k => { k with observing := false, cleanup := none })
    match k.terminal, cl.selectedProject with
    | some t, some p =>
      let record : Record := ⟨t, k.fitAddon, k.ws, cl.isConnected⟩
      w1.setSessions (w1.shellSessions.set (sessionKey cl.selectedSession p) record)
    | _, _ => w1

/-- Lines 486-503: the tab-activation effect, run with the render `snap`. -/
def activeEffect (c : CtlId) (snap : Controller) (w : World) : World :=
  if !snap.isActive || !snap.isInitialized then w else w.schedule (.activeFit c)

/-- Lines 129-146: the font-size effect, run with the render `snap`. -/
def fontSizeEffect (c : CtlId) (snap : Controller) (w : World) : World :=
  match (w.controllers c).terminal with
  | some t =>
    let w1 := w.emit (.termFontSize t snap.fontSize)
    match (w1.controllers c).fitAddon with
    | some _ => w1.schedule (.fontFit c)
    | none => w1
  | none => w

/-- Lines 52-61: `checkMobile`, whose closure is that of the first render,
where `fontSize` is 14. -/
def checkMobile (c : CtlId) (mobile : Bool) (w : World) : World :=
  let firstRenderFontSize := (Controller.initial none none false).fontSize
  let w1 := w.setCtl c (fun k => { k with isMobile := mobile })
  if mobile && firstRenderFontSize == 14 then w1.setCtl c (fun k => { k with fontSize := 12 })
  else w1

/-- Lines 120-122. -/
def increaseFontSize (c : CtlId) (w : World) : World :=
  w.setCtl c (fun k => { k with fontSize := min (k.fontSize + 2) 24 })

/-- Lines 124-126. -/
def decreaseFontSize (c : CtlId) (w : World) : World :=
  w.setCtl c (fun k => { k with fontSize := max (k.fontSize - 2) 8 })

/-! ## Sends and timer callbacks -/

/-- The guarded send `if (ws.current && ws.current.readyState === WebSocket.OPEN)
ws.current.send(...)` on the refs of `c`. -/
def sendIfOpen (c : CtlId) (frame : Frame) (w : World) : World :=
  match w.openSocketOf c with
  | some s => w.emit (.sockSend s frame)
  | none => w

/-- The resize frame of lines 136-141, 283-288, 421-426, 449-454, 494-499 and
578-583: sent when the socket ref is open, with the dimensions of the current
surface.  Where the source does not test `terminal.current` first, reading
`cols` of an absent surface throws and nothing is sent either. -/
def resizeIfOpen (c : CtlId) (w : World) : World :=
  match (w.controllers c).terminal with
  | some t => sendIfOpen c (.resize (w.terminals t).cols (w.terminals t).rows) w
  | none => w

/-- The callbacks of lines 133-143, 279-291, 417-429, 446-456 and 490-502:
fit, then the resize frame.  Where the source does not test `fitAddon.current`
inside the callback, calling `fit` of an absent addon throws and nothing
happens either. -/
def fitThenResize (c : CtlId) (dims : Nat × Nat) (w : World) : World :=
  match (w.controllers c).fitAddon with
  | some f => resizeIfOpen c (w.fit f dims)
  | none => w

/-- The callback of lines 384-388. -/
def fitOnly (c : CtlId) (dims : Nat × Nat) (w : World) : World :=
  match (w.controllers c).fitAddon with
  | some f => w.fit f dims
  | none => w

/-- The callback of lines 554-588 up to the inner `setTimeout`. -/
def openFitTimer (s : SockId) (dims : Nat × Nat) (w : World) : World :=
  let c := (w.sockets s).owner
  match (w.controllers c).fitAddon, (w.controllers c).terminal with
  | some f, some _ => (w.fit f dims).schedule (.initSend s)
  | _, _ => w

/-- The frame built at lines 562-572 from the props captured by socket `so`
and the surface `t`. -/
def initPayload (so : SocketObj) (p : Project) (t : TerminalObj) : Frame :=
  let currentSessionId :=
    orOption (sessionIdOf so.session) (so.session.bind (fun x => x.sessionId))
  .init (orOption p.fullPath p.path) currentSessionId (truthy currentSessionId) t.cols t.rows

/-- The callback of lines 560-586.  Reading a field of an absent project or
surface, calling `send` of an absent socket, and `send` on a socket that is
still connecting throw; `send` on a closing or closed socket discards the frame. -/
def initSendTimer (s : SockId) (w : World) : World :=
  let so := w.sockets s
  let k := w.controllers so.owner
  match so.project, k.terminal, k.ws with
  | some p, some t, some cur =>
    match (w.sockets cur).readyState with
    | .connecting => w
    | .isOpen => (w.emit (.sockSend cur (initPayload so p (w.terminals t)))).schedule (.initResize s)
    | _ => w.schedule (.initResize s)
  | _, _, _ => w

/-- Run the callback of a timer; `dims` is what a fit inside it measures. -/
def runTimer (t : Timer) (dims : Nat × Nat) (w : World) : World :=
  match t with
  | .fontFit c => fitThenResize c dims w
  | .reuseFit c => fitThenResize c dims w
  | .freshFit c => fitOnly c dims w
  | .freshFitResize c => fitThenResize c dims w
  | .observerFit c => fitThenResize c dims w
  | .activeFit c => fitThenResize c dims w
  | .openFit s => openFitTimer s dims w
  | .initSend s => initSendTimer s w
  | .initResize s => resizeIfOpen (w.sockets s).owner w
  | .restartDone c => w.setCtl c (fun k => { k with isRestarting := false })

/-! ## Surface events and toolbar actions -/

/-- Lines 434-441 and 400-406: the `onData` handler and the paste handler of
surface `t`, which read the socket ref of the instance that created `t`. -/
def onData (t : TermId) (data : String) (w : World) : World :=
  match (w.terminals t).dataOwner with
  | some c => sendIfOpen c (.input data) w
  | none => w

/-- Lines 444-458: the callback of the `ResizeObserver` of instance `c`. -/
def onHostResize (c : CtlId) (w : World) : World :=
  match (w.controllers c).fitAddon, (w.controllers c).terminal with
  | some _, some _ => w.schedule (.observerFit c)
  | _, _ => w

/-- Lines 105-112: `sendCommand`. -/
def sendCommand (c : CtlId) (command : String) (w : World) : World :=
  if (w.controllers c).isConnected then sendIfOpen c (.input (command ++ "\r")) w else w

/-- Lines 114-118: `clearTerminal`. -/
def clearTerminal (c : CtlId) (w : World) : World :=
  match (w.controllers c).terminal with
  | some t => w.emit (.termClear t)
  | none => w

/-! ## Renders, events and the step function

React runs an effect after a render when an entry of its dependency list
differs from the previous render, after running the cleanup the effect
returned last time.  State is compared by value; for the entries
`selectedProject` and `selectedSession` of line 483, whose identity is outside
the model, the event `propsChange` says that one of them changed.  The entry
`terminalRef.current` is read during the render: it is the host element of
line 811 exactly when the commit before that render had a project, so it
differs from the previous render in the render that follows a commit in which
the host element appeared or went away.  The first commit of an instance with
a project is such a commit: the render that follows it (there is one, since
the mount effect has set `isInitialized`) runs the cleanup of lines 464-482
and the mount effect again. -/

/-- The effects of the commit that follows a render of instance `c`; `prev`
is the previous render and `mountDeps` tells whether an entry of line 483
other than `isRestarting` changed. -/
def commit (c : CtlId) (prev : Controller) (mountDeps reattachThrows : Bool) (w : World) :
    World :=
  let snap := w.controllers c
  if !snap.mounted then w
  else
    let rerun := mountDeps || prev.isRestarting != snap.isRestarting
    let initChanged := prev.isInitialized != snap.isInitialized
    let w1 := if rerun then runCleanup c w else w
    let w2 := if prev.fontSize != snap.fontSize then fontSizeEffect c snap w1 else w1
    let w3 :=
      if sessionIdOf prev.selectedSession != sessionIdOf snap.selectedSession || initChanged
      then sessionChangeEffect c snap w2 else w2
    let w4 := if rerun then mountEffect c snap reattachThrows w3 else w3
    if prev.isActive != snap.isActive || initChanged then activeEffect c snap w4 else w4

/-- The commit after a render and the commit after the render that the state
changes of its effects cause. -/
def commit2 (c : CtlId) (prev : Controller) (mountDeps reattachThrows : Bool) (w : World) :
    World :=
  let snap := w.controllers c
  commit c snap false false (commit c prev mountDeps reattachThrows w)

/-- The commit after a render with new props and the commit after the render
that follows it, where `terminalRef.current` differs from the previous render
exactly when the host element appeared or went away with the new props. -/
def commitProps (c : CtlId) (prev : Controller) (reattachThrows : Bool) (w : World) : World :=
  let snap := w.controllers c
  commit c snap (prev.selectedProject.isSome != snap.selectedProject.isSome) false
    (commit c prev true reattachThrows w)

/-- Whether the main view of instance `c` (lines 669-865) is on screen. -/
def World.rendered (w : World) (c : CtlId) : Bool :=
  (w.controllers c).mounted && (w.controllers c).selectedProject.isSome

/-- Whether the mobile toolbar of instance `c` (line 734) is on screen. -/
def World.toolbar (w : World) (c : CtlId) : Bool :=
  w.rendered c && (w.controllers c).isMobile && (w.controllers c).showMobileToolbar
    && (w.controllers c).isConnected

/-- The instance whose callback a timer runs. -/
def World.timerOwner (w : World) : Timer → CtlId
  | .fontFit c => c
  | .reuseFit c => c
  | .freshFit c => c
  | .freshFitResize c => c
  | .observerFit c => c
  | .activeFit c => c
  | .openFit s => (w.sockets s).owner
  | .initSend s => (w.sockets s).owner
  | .initResize s => (w.sockets s).owner
  | .restartDone c => c

/-- What can happen on the page. -/
inductive Event
  | mount (project : Option Project) (session : Option Session)
      (isActive mobile reattachThrows : Bool)
  | propsChange (c : CtlId) (project : Option Project) (session : Option Session)
      (reattachThrows : Bool)
  | setActive (c : CtlId) (isActive : Bool)
  | unmount (c : CtlId)
  | windowResize (c : CtlId) (mobile : Bool)
  | clickConnect (c : CtlId) (token : Option String)
  | clickDisconnect (c : CtlId)
  | clickRestart (c : CtlId)
  | clickFontUp (c : CtlId)
  | clickFontDown (c : CtlId)
  | clickCommand (c : CtlId) (command : String)
  | clickClear (c : CtlId)
  | toggleToolbar (c : CtlId)
  | fetchSettled (i : Nat) (result : FetchResult) (loc : Location) (ctorError : Option String)
  | socketOpen (s : SockId)
  | socketMessage (s : SockId) (msg : Inbound)
  | socketError (s : SockId)
  | socketClose (s : SockId) (code : Nat) (reason : String)
  | surfaceData (t : TermId) (data : String)
  | hostResized (c : CtlId)
  | timer (i : Nat) (dims : Nat × Nat) (reattachThrows : Bool)
  deriving DecidableEq, Repr

/-- The first commit of a new instance, where every effect runs, in source
order, with the first render, and the commit after the render that follows.
In the first render `terminalRef.current` is null; in the next one it is the
host element when a project is selected, so the mount effect runs again. -/
def mountInstance (project : Option Project) (session : Option Session)
    (isActive mobile reattachThrows : Bool) (w : World) : World :=
  let c := w.nextCtl
  let snap := { Controller.initial project session isActive with mounted := true }
  let w0 := w.newCtl snap
  let w1 := checkMobile c mobile w0
  let w2 := fontSizeEffect c snap w1
  let w3 := sessionChangeEffect c snap w2
  let w4 := mountEffect c snap reattachThrows w3
  let w5 := activeEffect c snap w4
  commit c snap project.isSome false w5

/-- Unmounting instance `c`: its cleanup runs; timers and socket handlers stay. -/
def unmountInstance (c : CtlId) (w : World) : World :=
  (runCleanup c w).setCtl c (fun k => { k with mounted := false })

/-- Lines 718-720: a click on the Restart button, which is disabled while
`isRestarting || isConnected`. -/
def clickRestart (c : CtlId) (w : World) : World :=
  if (w.controllers c).isRestarting || (w.controllers c).isConnected then w
  else restartShell c w

/-- One event; an event that the page cannot deliver in the current state
(a button that is not rendered, an event of a socket that does not exist or is
not in the state for it) changes nothing. -/
def step (e : Event) (w : World) : World :=
  match e with
  | .mount project session isActive mobile reattachThrows =>
    mountInstance project session isActive mobile reattachThrows w
  | .propsChange c project session reattachThrows =>
    if (w.controllers c).mounted then
      commitProps c (w.controllers c) reattachThrows
        (w.setCtl c (fun k => { k with selectedProject := project, selectedSession := session }))
    else w
  | .setActive c isActive =>
    if (w.controllers c).mounted then
      commit2 c (w.controllers c) false false (w.setCtl c (fun k => { k with isActive := isActive }))
    else w
  | .unmount c => if (w.controllers c).mounted then unmountInstance c w else w
  | .windowResize c mobile =>
    if (w.controllers c).mounted then commit2 c (w.controllers c) false false (checkMobile c mobile w)
    else w
  | .clickConnect c token =>
    let k := w.controllers c
    if w.rendered c && k.isInitialized && !k.isConnected && !k.isConnecting then
      commit2 c k false false (connectToShell c token w)
    else w
  | .clickDisconnect c =>
    if w.rendered c && (w.controllers c).isConnected then
      commit2 c (w.controllers c) false false (disconnectFromShell c w)
    else w
  | .clickRestart c =>
    if w.rendered c then commit2 c (w.controllers c) false false (clickRestart c w) else w
  | .clickFontUp c =>
    if w.toolbar c then commit2 c (w.controllers c) false false (increaseFontSize c w) else w
  | .clickFontDown c =>
    if w.toolbar c then commit2 c (w.controllers c) false false (decreaseFontSize c w) else w
  | .clickCommand c command => if w.toolbar c then sendCommand c command w else w
  | .clickClear c => if w.toolbar c then clearTerminal c w else w
  | .toggleToolbar c =>
    if w.rendered c && (w.controllers c).isMobile then
      w.setCtl c (fun k => { k with showMobileToolbar := !k.showMobileToolbar })
    else w
  | .fetchSettled i result loc ctorError =>
    match w.fetches.get? i with
    | some f =>
      commit2 f.owner (w.controllers f.owner) false false
        (connectContinue f result loc ctorError (w.dropFetch i))
    | none => w
  | .socketOpen s =>
    if s < w.nextSock && (w.sockets s).readyState = .connecting then
      onopen s (w.setSock s (fun so => { so with readyState := .isOpen }))
    else w
  | .socketMessage s msg =>
    if s < w.nextSock && (w.sockets s).readyState = .isOpen then onmessage s msg w else w
  | .socketError s =>
    if s < w.nextSock && !(w.sockets s).closeDelivered then
      onerror s (w.setSock s (fun so => { so with readyState := .closed }))
    else w
  | .socketClose s code reason =>
    if s < w.nextSock && !(w.sockets s).closeDelivered then
      onclose s code reason
        (w.setSock s (fun so => { so with readyState := .closed, closeDelivered := true }))
    else w
  | .surfaceData t data =>
    if t < w.nextTerm && !(w.terminals t).disposed then onData t data w else w
  | .hostResized c => if (w.controllers c).observing then onHostResize c w else w
  | .timer i dims reattachThrows =>
    match w.timers.get? i with
    | some t =>
      let c := w.timerOwner t
      commit2 c (w.controllers c) false reattachThrows
        (runTimer t dims (w.dropTimer i))
    | none => w

/-- The page after a sequence of events. -/
def run (es : List Event) (w : World) : World :=
  es.foldl (fun acc e => step e acc) w

/-! ## Notions used in the statements -/

/-- Whether an external call is the construction of a socket (line 546). -/
def Effect.isNewSocket : Effect → Bool
  | .newSocket _ _ => true
  | _ => false

/-- Number of sockets constructed so far. -/
def World.constructed (w : World) : Nat :=
  w.trace.countP Effect.isNewSocket

/-- What the connect path has produced: the number of sockets constructed and
the configuration requests still pending. -/
def World.sig (w : World) : Nat × List Fetch :=
  (w.constructed, w.fetches)

/-- Whether an event is the settling of a pending configuration request whose
continuation reaches line 546 without an exception. -/
def Event.constructs (w : World) : Event → Bool
  | .fetchSettled i _ _ ctorError => (w.fetches.get? i).isSome && ctorError.isNone
  | _ => false

/-- Whether an event is a click on Connect with a non-empty token stored. -/
def Event.tokenConnect : Event → Bool
  | .clickConnect _ token => truthy token
  | _ => false

/-! ## Scenarios -/

/-- A project named `demo`. -/
def demo : Project :=
  ⟨"demo", some "/home/demo", none⟩

/-- The session with identifier `s1`. -/
def sessionOne : Session :=
  ⟨some "s1", none⟩

/-- The session with identifier `s2`. -/
def sessionTwo : Session :=
  ⟨some "s2", none⟩

/-- A page served from `example.com:4009` over plain HTTP. -/
def devLocation : Location :=
  ⟨"http:", "example.com", "4009"⟩

/-- Mount on `demo` without a session. -/
def mountDemo : Event :=
  .mount (some demo) none true false false

/-- Connect with token `tok1` on instance `c` until the socket is open. -/
def connectEvents (c : CtlId) (i : Nat) (s : SockId) : List Event :=
  [.clickConnect c (some "tok1"),
   .fetchSettled i (.config (some "ws://localhost:4008")) devLocation none,
   .socketOpen s]

/-- A fresh mount on `demo` that connects: the instance is Connected. -/
def connectedWorld : World :=
  run (mountDemo :: connectEvents 0 0 0) World.initial

/-- A fresh mount on `demo`. -/
def mountedWorld : World :=
  run [mountDemo] World.initial

/-- A fresh mount on `demo` followed by Connect: the instance is Connecting
and the configuration request is pending. -/
def connectingWorld : World :=
  run [mountDemo, .clickConnect 0 (some "tok1")] World.initial

/-- A first instance is mounted and unmounted; a second instance is mounted
on the same inputs, takes the stored surface, and connects. -/
def reusedConnectedWorld : World :=
  run ([mountDemo, .unmount 0, mountDemo] ++ connectEvents 1 0 0) World.initial

/-- A record with no socket for surface `t`. -/
def idleRecord (t : TermId) : Record :=
  ⟨t, some t, none, false⟩

/-- Instances on `(demo, s1)` and `(demo, s2)` are mounted, which stores a
record under each key, and unmounted; then an instance is mounted on
`(demo, s1)`. -/
def twoSessionsWorld : World :=
  run [.mount (some demo) (some sessionOne) true false false, .unmount 0,
       .mount (some demo) (some sessionTwo) true false false, .unmount 1,
       .mount (some demo) (some sessionOne) true false false] World.initial

/-- A project named `other`. -/
def otherProject : Project :=
  ⟨"other", none, some "/srv/other"⟩

/-- The dimensions used for fits in the scenarios. -/
def wide : Nat × Nat :=
  (100, 30)

/-- A fresh mount on `demo` whose timers have run, followed by a connect whose
timers have run: the instance is Connected, the init frame is sent and no
timer is pending. -/
def settledWorld : World :=
  run ([mountDemo, .timer 0 wide false, .timer 0 wide false, .timer 0 wide false] ++
    connectEvents 0 0 0 ++ [.timer 0 wide false, .timer 0 wide false, .timer 0 wide false])
    World.initial

/-- An instance on `(demo, s1)` clicks Connect: it is Connecting and the
configuration request is pending. -/
def connectingOnSessionOne : World :=
  run [.mount (some demo) (some sessionOne) true false false,
       .clickConnect 0 (some "tok1")] World.initial

/-- The selected session changes to `s2` while the configuration request of
`connectingOnSessionOne` is pending. -/
def switchedWhilePending : World :=
  step (.propsChange 0 (some demo) (some sessionTwo) false) connectingOnSessionOne

/-- An instance on `(demo, s1)` clicks Connect, the socket is constructed, and
the selected session changes to `s2` before the socket opens. -/
def switchedWhileOpening : World :=
  run [.mount (some demo) (some sessionOne) true false false,
       .clickConnect 0 (some "tok1"),
       .fetchSettled 0 .failed devLocation none,
       .propsChange 0 (some demo) (some sessionTwo) false] World.initial

/-- Whether an external call is an operation on a terminal surface. -/
def Effect.isSurfaceOp : Effect → Bool
  | .newTerminal _ _ => true
  | .termOpen _ => true
  | .termDetach _ => true
  | .termWrite _ _ => true
  | .termClear _ => true
  | .termDispose _ => true
  | .termFit _ _ _ => true
  | .termFontSize _ _ => true
  | _ => false

/-- The operations applied to terminal surfaces, in order. -/
def surfaceOps (l : List Effect) : List Effect :=
  l.filter Effect.isSurfaceOp

/-- Whether `a` occurs in the list with `b` somewhere after it. -/
def writtenBefore (a b : Effect) : List Effect → Bool
  | [] => false
  | e :: rest => if e == a then rest.contains b else writtenBefore a b rest

/-- The frames sent on sockets, in order. -/
def sentFrames : List Effect → List Frame
  | [] => []
  | .sockSend _ f :: rest => f :: sentFrames rest
  | _ :: rest => sentFrames rest

/-- A page change that takes `isConnected` of no instance from false to true. -/
def NoRise (f : World → World) : Prop :=
  ∀ (w : World) (c : CtlId),
    ((f w).controllers c).isConnected = true → (w.controllers c).isConnected = true

/-- A fresh mount on `(demo, s1)` whose timers have run, a connect, and the first
timer after the open: the timer that sends the init frame is pending. -/
def readyToInit : World :=
  run ([.mount (some demo) (some sessionOne) true false false, .timer 0 wide false,
      .timer 0 wide false, .timer 0 wide false] ++
    connectEvents 0 0 0 ++ [.timer 0 wide false]) World.initial

/-- What happens to the host view of an instance: it takes a new size, given in
columns and rows, which runs the callback of the `ResizeObserver`; or the oldest
pending timer fires, and the fit inside it measures the size the host view has
at that time. -/
inductive HostEvent
  | resized (size : Nat × Nat)
  | timerFires
  deriving DecidableEq, Repr

/-- The page after a timeline of the host view of instance `c`, whose size is
`size` at the start. -/
def hostRun (c : CtlId) : List HostEvent → Nat × Nat → World → World
  | [], _, w => w
  | .resized size :: rest, _, w => hostRun c rest size (step (.hostResized c) w)
  | .timerFires :: rest, size, w => hostRun c rest size (step (.timer 0 size false) w)

/-- The frames the claim words ask for: one resize frame per trigger, carrying
the size of that trigger. -/
def triggerFrames : List HostEvent → List Frame
  | [] => []
  | .resized size :: rest => .resize size.1 size.2 :: triggerFrames rest
  | .timerFires :: rest => triggerFrames rest

/-- The frames of deferred measuring: each callback that fires while `pending`
callbacks are waiting sends the size the host view has at that time. -/
def deferredFrames : List HostEvent → Nat × Nat → Nat → List Frame
  | [], _, _ => []
  | .resized size :: rest, _, pending => deferredFrames rest size (pending + 1)
  | .timerFires :: rest, size, pending + 1 =>
    .resize size.1 size.2 :: deferredFrames rest size pending
  | .timerFires :: rest, size, 0 => deferredFrames rest size 0

/-- Triggers that are each followed by their deferred callback before the next
trigger comes. -/
def spaced (sizes : List (Nat × Nat)) : List HostEvent :=
  sizes.flatMap (fun z => [.resized z, .timerFires])

/-- Triggers that all come before the first deferred callback runs. -/
def burst (sizes : List (Nat × Nat)) : List HostEvent :=
  sizes.map HostEvent.resized ++ List.replicate sizes.length .timerFires

/-- Instance `c` observes its host view and holds surface `t` with its fit addon
and the open socket `s`; the pending timers are `n` deferred callbacks of the
observer. -/
def ResizeReady (c : CtlId) (t : TermId) (s : SockId) (n : Nat) (w : World) : Prop :=
  (w.controllers c).observing = true ∧ (w.controllers c).fitAddon = some t ∧
    (w.controllers c).terminal = some t ∧ (w.controllers c).ws = some s ∧
    (w.sockets s).readyState = .isOpen ∧ w.timers = List.replicate n (.observerFit c)

/-- Whether the callback of lines 560-586 ends with an uncaught exception:
reading a field of an absent project (line 567) or of an absent surface (line
570), calling `send` of an absent socket, or calling `send` on a socket that
is still connecting (line 574). -/
def initSendThrows (s : SockId) (w : World) : Bool :=
  let so := w.sockets s
  let k := w.controllers so.owner
  match so.project, k.terminal, k.ws with
  | some _, some _, some cur => (w.sockets cur).readyState == .connecting
  | _, _, _ => true

/-- The socket of `readyToInit` is open and the first timer has run; then the
user clicks Disconnect, before the timer that sends the init frame runs. -/
def disconnectedBeforeInit : World :=
  step (.clickDisconnect 0) readyToInit

/-- A fresh mount on `demo` whose timers have run, then Restart, its timer, and
the timers of the surface created by the run of the mount effect that follows
(lines 222-224).  No later render changes an entry of line 483, so the cleanup
and the observer of that run stay in place. -/
def restartedWorld : World :=
  run [mountDemo, .timer 0 wide false, .timer 0 wide false, .timer 0 wide false,
    .clickRestart 0, .timer 0 wide false, .timer 0 wide false, .timer 0 wide false,
    .timer 0 wide false] World.initial

/-- After `restartedWorld`, a connect up to the open event: the three timers of
the connect path have not run yet. -/
def restartedJustOpened : World :=
  run (connectEvents 0 0 0) restartedWorld

/-- After `restartedWorld`, a connect whose timers have run: the instance is
Connected on surface 1 and socket 0, and no timer is pending. -/
def restartedSettled : World :=
  run [.timer 0 wide false, .timer 0 wide false, .timer 0 wide false] restartedJustOpened

/-- The instance of `restartedSettled` is unmounted while Connected and a second
instance is mounted on the same inputs, which takes the stored record. -/
def remountedWhileConnected : World :=
  run [.unmount 0, mountDemo] restartedSettled

/-- A fresh mount on `demo` on a mobile device whose timers have run, a connect
up to the open event, and the mobile toolbar opened: the three timers of the
connect path have not run yet. -/
def mobileJustOpened : World :=
  run ([.mount (some demo) none true true false, .timer 0 wide false, .timer 0 wide false,
      .timer 0 wide false, .timer 0 wide false] ++ connectEvents 0 0 0 ++ [.toggleToolbar 0])
    World.initial

/-- The instance of `settledWorld` clicks Disconnect, which drops socket 0, and
then Connect again; the new socket 1 opens. The close event of socket 0 has
not been delivered yet. -/
def supersededWorld : World :=
  run [.clickDisconnect 0, .clickConnect 0 (some "tok1"),
       .fetchSettled 0 .failed devLocation none, .socketOpen 1] settledWorld

/-- A fresh mount on `demo` whose timers have run and a connect up to the open
event: the three timers of the connect path have not run yet. -/
def justOpenedWorld : World :=
  run ([mountDemo, .timer 0 wide false, .timer 0 wide false, .timer 0 wide false] ++
    connectEvents 0 0 0) World.initial

/-- A project named `app`. -/
def appProject : Project :=
  ⟨"app", none, some "/srv/app"⟩

/-- A project named `webapp`. -/
def webappProject : Project :=
  ⟨"webapp", none, some "/srv/webapp"⟩

/-- An instance on `webapp` is mounted, which stores its record in the render
after the first commit, and unmounted; then an instance on `(app, s1)` is
mounted. -/
def twoProjectsWorld : World :=
  run [.mount (some webappProject) none true false false, .unmount 0,
       .mount (some appProject) (some sessionOne) true false false] World.initial

/-- After the Disconnect of `disconnectedBeforeInit` the user clicks Connect
again and the new socket is constructed; it has not opened when the timer of
the first connection that sends the init frame runs. -/
def reconnectingBeforeInit : World :=
  run [.clickConnect 0 (some "tok1"), .fetchSettled 0 .failed devLocation none]
    disconnectedBeforeInit

/-- The instance of `settledWorld` clicks Disconnect, which drops socket 0, and
then Connect again: the configuration request of the new attempt is pending. -/
def supersedingWorld : World :=
  run [.clickDisconnect 0, .clickConnect 0 (some "tok1")] settledWorld

/-- A sequence of clicks on the two font buttons of instance `c`: `true` is
the larger-font button, `false` the smaller-font button. -/
def fontClicks (c : CtlId) : List Bool → World → World
  | [], w => w
  | true :: rest, w => fontClicks c rest (increaseFontSize c w)
  | false :: rest, w => fontClicks c rest (decreaseFontSize c w)


/-- A fresh mount on `demo` whose timers have run, a Connect, and the
configuration request settled: the socket is constructed and has not opened. -/
def awaitingOpen : World :=
  run [mountDemo, .timer 0 wide false, .timer 0 wide false, .timer 0 wide false,
    .clickConnect 0 (some "tok1"), .fetchSettled 0 .failed devLocation none] World.initial

/-- The text with everything from the first `token=` onward replaced by
`token=[REDACTED]`, which is how the logged URL is described; compared with
`redactChars` of the source. -/
def replaceFromToken : List Char → List Char
  | [] => []
  | ch :: rest =>
    if isPrefixChars "token=".data (ch :: rest) then "token=[REDACTED]".data
    else ch :: replaceFromToken rest

/-! ## The connect path is the only source of sockets -/

/-! ## Basic facts about the page operations -/

theorem setCtl_sig (w : World) (c : CtlId) (f : Controller → Controller) :
    (w.setCtl c f).sig = w.sig := rfl

theorem schedule_sig (w : World) (t : Timer) : (w.schedule t).sig = w.sig := rfl

theorem setSessions_sig (w : World) (r : Registry) : (w.setSessions r).sig = w.sig := rfl

theorem setTerm_sig (w : World) (t : TermId) (f : TerminalObj → TerminalObj) :
    (w.setTerm t f).sig = w.sig := rfl

theorem setSock_sig (w : World) (s : SockId) (f : SocketObj → SocketObj) :
    (w.setSock s f).sig = w.sig := rfl

theorem newTerm_sig (w : World) (o : TerminalObj) : (w.newTerm o).sig = w.sig := rfl

theorem newSock_sig (w : World) (o : SocketObj) : (w.newSock o).sig = w.sig := rfl

theorem newCtl_sig (w : World) (k : Controller) : (w.newCtl k).sig = w.sig := rfl

theorem dropTimer_sig (w : World) (i : Nat) : (w.dropTimer i).sig = w.sig := rfl

theorem emit_sig (w : World) (e : Effect) (h : e.isNewSocket = false) :
    (w.emit e).sig = w.sig := by
  simp [World.sig, World.constructed, World.emit, List.countP_append, h]

theorem fit_sig (w : World) (t : TermId) (d : Nat × Nat) : (w.fit t d).sig = w.sig :=
  emit_sig _ _ rfl

theorem closeSocket_sig (w : World) (s : SockId) : (w.closeSocket s).sig = w.sig :=
  emit_sig _ _ rfl

theorem disconnect_sig (c : CtlId) (w : World) : (disconnectFromShell c w).sig = w.sig := by
  simp only [disconnectFromShell]
  repeat' split
  all_goals simp [setCtl_sig, emit_sig, closeSocket_sig, Effect.isNewSocket]

theorem restartShell_sig (c : CtlId) (w : World) : (restartShell c w).sig = w.sig := by
  simp only [restartShell]
  repeat' split
  all_goals simp [setCtl_sig, emit_sig, closeSocket_sig, schedule_sig, setSessions_sig,
    setTerm_sig, Effect.isNewSocket]

theorem clickRestart_sig (c : CtlId) (w : World) : (clickRestart c w).sig = w.sig := by
  simp only [clickRestart]
  split <;> simp [restartShell_sig]

theorem sessionChangeEffect_sig (c : CtlId) (snap : Controller) (w : World) :
    (sessionChangeEffect c snap w).sig = w.sig := by
  simp only [sessionChangeEffect]
  repeat' split
  all_goals simp [setCtl_sig, setSessions_sig, disconnect_sig]

theorem createSurface_sig (c : CtlId) (snap : Controller) (p : Project) (w : World) :
    (createSurface c snap p w).sig = w.sig := by
  simp [createSurface, setCtl_sig, emit_sig, schedule_sig, newTerm_sig, Effect.isNewSocket]

theorem mountEffect_sig (c : CtlId) (snap : Controller) (b : Bool) (w : World) :
    (mountEffect c snap b w).sig = w.sig := by
  simp only [mountEffect]
  repeat' split
  all_goals simp [setCtl_sig, emit_sig, schedule_sig, setSessions_sig, setTerm_sig,
    createSurface_sig, Effect.isNewSocket]

theorem runCleanup_sig (c : CtlId) (w : World) : (runCleanup c w).sig = w.sig := by
  simp only [runCleanup]
  repeat' split
  all_goals simp [setCtl_sig, emit_sig, setSessions_sig, Effect.isNewSocket]

theorem activeEffect_sig (c : CtlId) (snap : Controller) (w : World) :
    (activeEffect c snap w).sig = w.sig := by
  simp only [activeEffect]
  split <;> simp [schedule_sig]

theorem fontSizeEffect_sig (c : CtlId) (snap : Controller) (w : World) :
    (fontSizeEffect c snap w).sig = w.sig := by
  simp only [fontSizeEffect]
  repeat' split
  all_goals simp [emit_sig, schedule_sig, Effect.isNewSocket]

theorem checkMobile_sig (c : CtlId) (mobile : Bool) (w : World) :
    (checkMobile c mobile w).sig = w.sig := by
  simp only [checkMobile]
  split <;> simp [setCtl_sig]

theorem sendIfOpen_sig (c : CtlId) (f : Frame) (w : World) : (sendIfOpen c f w).sig = w.sig := by
  simp only [sendIfOpen]
  split <;> simp [emit_sig, Effect.isNewSocket]

theorem resizeIfOpen_sig (c : CtlId) (w : World) : (resizeIfOpen c w).sig = w.sig := by
  simp only [resizeIfOpen]
  split <;> simp [sendIfOpen_sig]

theorem fitThenResize_sig (c : CtlId) (d : Nat × Nat) (w : World) :
    (fitThenResize c d w).sig = w.sig := by
  simp only [fitThenResize]
  split <;> simp [resizeIfOpen_sig, fit_sig]

theorem fitOnly_sig (c : CtlId) (d : Nat × Nat) (w : World) : (fitOnly c d w).sig = w.sig := by
  simp only [fitOnly]
  split <;> simp [fit_sig]

theorem openFitTimer_sig (s : SockId) (d : Nat × Nat) (w : World) :
    (openFitTimer s d w).sig = w.sig := by
  simp only [openFitTimer]
  split <;> simp [fit_sig, schedule_sig]

theorem initSendTimer_sig (s : SockId) (w : World) : (initSendTimer s w).sig = w.sig := by
  simp only [initSendTimer]
  repeat' split
  all_goals simp [emit_sig, schedule_sig, Effect.isNewSocket]

theorem runTimer_sig (t : Timer) (d : Nat × Nat) (w : World) : (runTimer t d w).sig = w.sig := by
  cases t <;>
    simp [runTimer, fitThenResize_sig, fitOnly_sig, openFitTimer_sig, initSendTimer_sig,
      resizeIfOpen_sig, setCtl_sig]

theorem onopen_sig (s : SockId) (w : World) : (onopen s w).sig = w.sig := by
  simp [onopen, setCtl_sig, schedule_sig]

theorem onmessage_sig (s : SockId) (msg : Inbound) (w : World) : (onmessage s msg w).sig = w.sig := by
  simp only [onmessage]
  repeat' split
  all_goals simp [emit_sig, Effect.isNewSocket]

theorem onclose_sig (s : SockId) (code : Nat) (reason : String) (w : World) :
    (onclose s code reason w).sig = w.sig := by
  simp only [onclose]
  repeat' split
  all_goals simp [emit_sig, setCtl_sig, Effect.isNewSocket]

theorem onerror_sig (s : SockId) (w : World) : (onerror s w).sig = w.sig := by
  simp only [onerror]
  repeat' split
  all_goals simp [emit_sig, setCtl_sig, Effect.isNewSocket]

theorem onData_sig (t : TermId) (d : String) (w : World) : (onData t d w).sig = w.sig := by
  simp only [onData]
  split <;> simp [sendIfOpen_sig]

theorem onHostResize_sig (c : CtlId) (w : World) : (onHostResize c w).sig = w.sig := by
  simp only [onHostResize]
  split <;> simp [schedule_sig]

theorem sendCommand_sig (c : CtlId) (cmd : String) (w : World) :
    (sendCommand c cmd w).sig = w.sig := by
  simp only [sendCommand]
  split <;> simp [sendIfOpen_sig]

theorem clearTerminal_sig (c : CtlId) (w : World) : (clearTerminal c w).sig = w.sig := by
  simp only [clearTerminal]
  split <;> simp [emit_sig, Effect.isNewSocket]

theorem commit_sig (c : CtlId) (prev : Controller) (a b : Bool) (w : World) :
    (commit c prev a b w).sig = w.sig := by
  simp only [commit]
  repeat' split
  all_goals simp [runCleanup_sig, fontSizeEffect_sig, sessionChangeEffect_sig, mountEffect_sig,
    activeEffect_sig]

theorem commit2_sig (c : CtlId) (prev : Controller) (a b : Bool) (w : World) :
    (commit2 c prev a b w).sig = w.sig := by
  simp [commit2, commit_sig]

theorem commitProps_sig (c : CtlId) (prev : Controller) (b : Bool) (w : World) :
    (commitProps c prev b w).sig = w.sig := by
  simp [commitProps, commit_sig]

theorem mountInstance_sig (p : Option Project) (s : Option Session) (a m r : Bool) (w : World) :
    (mountInstance p s a m r w).sig = w.sig := by
  simp [mountInstance, commit_sig, activeEffect_sig, mountEffect_sig, sessionChangeEffect_sig,
    fontSizeEffect_sig, checkMobile_sig, newCtl_sig]

theorem unmountInstance_sig (c : CtlId) (w : World) : (unmountInstance c w).sig = w.sig := by
  simp [unmountInstance, setCtl_sig, runCleanup_sig]

theorem connectToShell_constructed (c : CtlId) (token : Option String) (w : World) :
    (connectToShell c token w).constructed = w.constructed := by
  simp only [connectToShell, connectWebSocket]
  repeat' split
  all_goals simp [World.constructed, World.emit, World.setCtl, World.addFetch,
    List.countP_append, Effect.isNewSocket]

theorem connectToShell_fetches (c : CtlId) (token : Option String) (w : World) :
    (connectToShell c token w).fetches.length ≤
      w.fetches.length + if truthy token then 1 else 0 := by
  simp only [connectToShell, connectWebSocket]
  repeat' split
  all_goals simp_all [World.emit, World.setCtl, World.addFetch, truthy]

theorem connectContinue_constructed (f : Fetch) (r : FetchResult) (loc : Location)
    (err : Option String) (w : World) :
    (connectContinue f r loc err w).constructed =
      w.constructed + if err.isNone then 1 else 0 := by
  cases err with
  | none =>
    simp [connectContinue, World.constructed, World.emit, World.setCtl, World.newSock,
      List.countP_append, Effect.isNewSocket]
  | some m =>
    simp only [connectContinue]
    split <;>
      simp [World.constructed, World.emit, World.setCtl, List.countP_append, Effect.isNewSocket]

theorem connectContinue_fetches (f : Fetch) (r : FetchResult) (loc : Location)
    (err : Option String) (w : World) :
    (connectContinue f r loc err w).fetches = w.fetches := by
  simp only [connectContinue]
  repeat' split
  all_goals simp [World.emit, World.setCtl, World.newSock]

theorem sig_constructed {w w' : World} (h : w'.sig = w.sig) : w'.constructed = w.constructed :=
  congrArg Prod.fst h

theorem sig_fetches {w w' : World} (h : w'.sig = w.sig) : w'.fetches = w.fetches :=
  congrArg Prod.snd h

/-- Every event other than the two of the connect path leaves the count of
constructed sockets and the pending requests as they are. -/
theorem step_sig (e : Event) (w : World)
    (h1 : ∀ c token, e ≠ .clickConnect c token)
    (h2 : ∀ i r loc err, e ≠ .fetchSettled i r loc err) :
    (step e w).sig = w.sig := by
  cases e with
  | clickConnect c token => exact absurd rfl (h1 c token)
  | fetchSettled i r loc err => exact absurd rfl (h2 i r loc err)
  | timer i d b =>
    simp only [step]
    split
    · simp [commit2_sig, runTimer_sig, dropTimer_sig]
    · rfl
  | _ =>
    simp only [step]
    repeat' split
    all_goals simp [mountInstance_sig, commit2_sig, commitProps_sig, setCtl_sig,
      unmountInstance_sig,
      checkMobile_sig, disconnect_sig, clickRestart_sig, sendCommand_sig, clearTerminal_sig,
      onopen_sig, onmessage_sig, onerror_sig, onclose_sig, onData_sig, onHostResize_sig,
      setSock_sig, increaseFontSize, decreaseFontSize]

theorem step_constructed (e : Event) (w : World) :
    (step e w).constructed = w.constructed + if e.constructs w then 1 else 0 := by
  by_cases h1 : ∃ c token, e = .clickConnect c token
  · obtain ⟨c, token, rfl⟩ := h1
    simp only [step, Event.constructs]
    split
    · simp [sig_constructed (commit2_sig _ _ _ _ _), connectToShell_constructed]
    · simp
  · by_cases h2 : ∃ i r loc err, e = .fetchSettled i r loc err
    · obtain ⟨i, r, loc, err, rfl⟩ := h2
      cases hf : w.fetches.get? i with
      | none => simp only [step, Event.constructs, hf]; simp
      | some f =>
        have hc : (w.dropFetch i).constructed = w.constructed := rfl
        simp only [step, Event.constructs, hf, sig_constructed (commit2_sig _ _ _ _ _),
          connectContinue_constructed, hc]
        simp
    · have h := step_sig e w (fun c t he => h1 ⟨c, t, he⟩)
        (fun i r loc err he => h2 ⟨i, r, loc, err, he⟩)
      have hn : e.constructs w = false := by
        cases e <;> first | rfl | exact absurd ⟨_, _, _, _, rfl⟩ h2
      simp [sig_constructed h, hn]

theorem step_budget (e : Event) (w : World) :
    (step e w).constructed + (step e w).fetches.length ≤
      w.constructed + w.fetches.length + if e.tokenConnect then 1 else 0 := by
  by_cases h1 : ∃ c token, e = .clickConnect c token
  · obtain ⟨c, token, rfl⟩ := h1
    simp only [step, Event.tokenConnect]
    split
    · have h1 := connectToShell_constructed c token w
      have h2 := connectToShell_fetches c token w
      rw [sig_constructed (commit2_sig _ _ _ _ _), sig_fetches (commit2_sig _ _ _ _ _)]
      omega
    · omega
  · by_cases h2 : ∃ i r loc err, e = .fetchSettled i r loc err
    · obtain ⟨i, r, loc, err, rfl⟩ := h2
      cases hf : w.fetches.get? i with
      | none => simp only [step, hf]; omega
      | some f =>
        have hi : i < w.fetches.length := by
          rcases List.get?_eq_some.mp hf with ⟨h, _⟩
          exact h
        have hlen : (w.dropFetch i).fetches.length = w.fetches.length - 1 := by
          simp [World.dropFetch, List.length_eraseIdx, hi]
        have hc : (w.dropFetch i).constructed = w.constructed := rfl
        simp only [step, hf, sig_constructed (commit2_sig _ _ _ _ _),
          sig_fetches (commit2_sig _ _ _ _ _), connectContinue_constructed,
          connectContinue_fetches, hlen, hc]
        split <;> omega
    · have h := step_sig e w (fun c t he => h1 ⟨c, t, he⟩)
        (fun i r loc err he => h2 ⟨i, r, loc, err, he⟩)
      rw [sig_constructed h, sig_fetches h]
      omega

theorem run_cons (e : Event) (es : List Event) (w : World) :
    run (e :: es) w = run es (step e w) := rfl

theorem run_budget (es : List Event) (w : World) :
    (run es w).constructed + (run es w).fetches.length ≤
      w.constructed + w.fetches.length + (es.filter Event.tokenConnect).length := by
  induction es generalizing w with
  | nil => simp [run]
  | cons e es ih =>
    rw [run_cons]
    have h1 := ih (step e w)
    have h2 := step_budget e w
    by_cases he : e.tokenConnect = true
    · simp only [he, if_true] at h2
      simp only [List.filter_cons, he, if_true, List.length_cons]
      omega
    · simp only [he] at h2
      simp only [List.filter_cons, he]
      simp at h2 ⊢
      omega

/-- Claim C9: a step constructs a socket exactly when it is the settling of a
pending configuration request whose continuation reaches line 546 (so mount,
props change, disconnect, socket close, socket error and restart construct
none); a pending request is added only by a click on Connect that found a
non-empty token; hence in every execution from the initial page the sockets
constructed plus the requests pending never exceed the number of such clicks. -/
theorem sockets_only_from_token_connect :
    (∀ (e : Event) (w : World),
      (step e w).constructed = w.constructed + if e.constructs w then 1 else 0) ∧
    (∀ (e : Event) (w : World),
      (step e w).fetches.length ≤ w.fetches.length + if e.tokenConnect then 1 else 0) ∧
    (∀ es : List Event,
      (run es World.initial).constructed + (run es World.initial).fetches.length ≤
        (es.filter Event.tokenConnect).length) := by
  refine ⟨step_constructed, ?_, ?_⟩
  · intro e w
    have h := step_budget e w
    have h2 := step_constructed e w
    omega
  · intro es
    have h := run_budget es World.initial
    simpa [World.initial, World.constructed] using h

/-! ## The claims -/

theorem commit_same (c : CtlId) (b : Bool) (w : World) :
    commit c (w.controllers c) false b w = w := by
  simp [commit]

theorem commit2_same (c : CtlId) (w : World) :
    commit2 c (w.controllers c) false false w = w := by
  simp [commit2, commit_same]

theorem Registry.get_set (r : Registry) (key : String) (v : Record) :
    Registry.get (Registry.set r key v) key = some v := by
  induction r with
  | nil => simp [Registry.set, Registry.get]
  | cons e rest ih =>
    obtain ⟨k, v0⟩ := e
    by_cases h : k = key
    · simp [Registry.set, Registry.get, h]
    · simp [Registry.set, Registry.get, h, ih]

theorem orString_of_falsy (a : Option String) (b : String) (h : a = none ∨ a = some "") :
    orString a b = b := by
  rcases h with h | h <;> simp [h, orString]

theorem append_left_cancel_string (a b c : String) (h : a ++ b = a ++ c) : b = c := by
  have h1 : (a ++ b).data = (a ++ c).data := congrArg String.data h
  simp only [String.data_append] at h1
  exact String.ext (List.append_cancel_left h1)

/-- Claim C1: a Connect issued with no stored token (absent or empty) changes nothing
but the trace, to which it adds the authentication-required message when a
surface exists, and nothing else: no socket, no configuration request, and
the state flags stay as they are. -/
theorem connect_without_token (w : World) (c : CtlId) (token : Option String)
    (h : token = none ∨ token = some "") :
    connectToShell c token w =
      { w with trace := w.trace ++
          match (w.controllers c).terminal with
          | some t => [Effect.termWrite t authRequiredMessage]
          | none => [] } ∧
    (step (.clickConnect c token) w = w ∨
      step (.clickConnect c token) w = connectToShell c token w) := by
  have ht : truthy token = false := by rcases h with h | h <;> simp [h, truthy]
  have h1 : connectToShell c token w =
      { w with trace := w.trace ++
          match (w.controllers c).terminal with
          | some t => [Effect.termWrite t authRequiredMessage]
          | none => [] } := by
    simp only [connectToShell, ht]
    cases (w.controllers c).terminal <;> simp [World.emit]
  refine ⟨h1, ?_⟩
  simp only [step]
  split
  · right
    have hk : w.controllers c = (connectToShell c token w).controllers c := by rw [h1]
    rw [hk]
    exact commit2_same c _
  · left; rfl

/-- Witness of C1. -/
theorem connect_without_token_witness :
    ((none : Option String) = none ∨ (none : Option String) = some "") ∧
    (connectToShell 0 none mountedWorld).trace =
      mountedWorld.trace ++ [Effect.termWrite 0 authRequiredMessage] :=
  ⟨Or.inl rfl, by
    have h := (connect_without_token mountedWorld 0 none (Or.inl rfl)).1
    rw [h]
    decide⟩

/-- Claim C2 (evaluated at the failing input): an instance that was itself mounted
from a stored record holds no cleanup (the reuse branch returns at line 294
without one), so its unmount leaves the session map as it was; the next mount
on the same inputs takes the same surface but the socket of the stale record
(none), not the socket the unmounted instance held. -/
theorem remount_after_reuse_loses_socket :
    (reusedConnectedWorld.controllers 1).terminal = some 0 ∧
    (reusedConnectedWorld.controllers 1).ws = some 0 ∧
    (reusedConnectedWorld.controllers 1).cleanup = none ∧
    (step (.unmount 1) reusedConnectedWorld).shellSessions = reusedConnectedWorld.shellSessions ∧
    (step (.unmount 1) reusedConnectedWorld).shellSessions.get (sessionKey none demo) =
      some ⟨0, some 0, none, false⟩ ∧
    ((run [.unmount 1, mountDemo] reusedConnectedWorld).controllers 2).terminal = some 0 ∧
    ((run [.unmount 1, mountDemo] reusedConnectedWorld).controllers 2).ws = none := by
  decide

/-- Claim C3 (evaluated at the failing input): the instance is Connected when it
unmounts. The cleanup of lines 464-482 ran in the render that followed the
first commit, where it stored the record with no socket and the flag false,
and the run of the mount effect after it returned no cleanup (line 305): the
unmount writes nothing, and the record keeps no socket and the flag false.
When the surface was created after a Restart the cleanup is still in place at
the unmount: it stores the socket, with the `isConnected` of the render that
created the surface, which is false. -/
theorem unmount_stores_stale_flag :
    (connectedWorld.controllers 0).isConnected = true ∧
    (connectedWorld.controllers 0).terminal = some 0 ∧
    (connectedWorld.controllers 0).ws = some 0 ∧
    (connectedWorld.sockets 0).readyState = .isOpen ∧
    (connectedWorld.controllers 0).cleanup = none ∧
    (step (.unmount 0) connectedWorld).trace = connectedWorld.trace ∧
    (step (.unmount 0) connectedWorld).shellSessions.get (sessionKey none demo) =
      some ⟨0, some 0, none, false⟩ ∧
    (restartedSettled.controllers 0).isConnected = true ∧
    (restartedSettled.controllers 0).terminal = some 1 ∧
    (restartedSettled.controllers 0).ws = some 0 ∧
    (restartedSettled.sockets 0).readyState = .isOpen ∧
    (step (.unmount 0) restartedSettled).trace = restartedSettled.trace ++ [.unobserve 0] ∧
    (step (.unmount 0) restartedSettled).shellSessions.get (sessionKey none demo) =
      some ⟨1, some 1, some 0, false⟩ := by
  decide

/-- Claim C4 (evaluated at the failing input): the session map holds records under
the keys of `(demo, s1)` and `(demo, s2)`; neither key includes the project
name, so the purge of a session switch away from `s1` and the purge of Restart
delete neither record. -/
theorem purge_misses_session_keys :
    twoSessionsWorld.shellSessions =
      [(sessionKey (some sessionOne) demo, idleRecord 0),
       (sessionKey (some sessionTwo) demo, idleRecord 1)] ∧
    (step (.propsChange 2 (some demo) (some sessionTwo) false) twoSessionsWorld).shellSessions =
      twoSessionsWorld.shellSessions ∧
    (step (.clickRestart 2) twoSessionsWorld).shellSessions = twoSessionsWorld.shellSessions ∧
    purgeEach twoSessionsWorld.shellSessions demo.name = twoSessionsWorld.shellSessions ∧
    purgeProject twoSessionsWorld.shellSessions demo.name = twoSessionsWorld.shellSessions := by
  decide

/-- Claim C5: while `isConnected` is true a click on Restart changes nothing at all:
the state, the socket, the surface and the session map stay as they are. -/
theorem restart_while_connected (w : World) (c : CtlId)
    (h : (w.controllers c).isConnected = true) :
    clickRestart c w = w ∧ step (.clickRestart c) w = w := by
  have h1 : clickRestart c w = w := by simp [clickRestart, h]
  refine ⟨h1, ?_⟩
  simp only [step, h1, commit2_same]
  split <;> rfl

/-- Witness of C5. -/
theorem restart_while_connected_witness :
    (connectedWorld.controllers 0).isConnected = true ∧
    (clickRestart 0 connectedWorld = connectedWorld ∧
      step (.clickRestart 0) connectedWorld = connectedWorld) :=
  ⟨by decide, restart_while_connected connectedWorld 0 (by decide)⟩

/-- Claim C6 (evaluated at the failing input): `restartShell` never writes
`isConnecting`; from Connecting, Restart proceeds and leaves `isConnecting`
true, while the handles are dropped and the other two flags are false. -/
theorem restart_keeps_isConnecting :
    (∀ (w : World) (c : CtlId),
      ((restartShell c w).controllers c).isConnecting = (w.controllers c).isConnecting) ∧
    (connectingWorld.controllers 0).isConnecting = true ∧
    (connectingWorld.controllers 0).isConnected = false ∧
    (connectingWorld.controllers 0).isRestarting = false ∧
    ((step (.clickRestart 0) connectingWorld).controllers 0).isConnecting = true ∧
    ((step (.clickRestart 0) connectingWorld).controllers 0).terminal = none ∧
    ((step (.clickRestart 0) connectingWorld).controllers 0).fitAddon = none ∧
    ((step (.clickRestart 0) connectingWorld).controllers 0).ws = none ∧
    ((step (.clickRestart 0) connectingWorld).controllers 0).isConnected = false ∧
    ((step (.clickRestart 0) connectingWorld).controllers 0).isInitialized = false := by
  refine ⟨?_, by decide⟩
  intro w c
  simp only [restartShell]
  repeat' split
  all_goals simp [World.setCtl, World.schedule, World.emit, World.setTerm, World.setSessions,
    World.closeSocket, World.setSock, upd]

/-- Counterexample of C7: for project `demo` without a session the key is not `project:demo`. -/
theorem fallback_key_is_not_colon :
    sessionKey none demo ≠ "project:" ++ demo.name := by
  decide

/-- Claim C7 (amended): when no session identifier is supplied (no session, or an
absent or empty `id`) the key is `project-` followed by the project's name;
the cleanup stores the record under that key and the mount effect reads the
record under that key. -/
theorem fallback_key (p : Project) (session : Option Session)
    (h : sessionIdOf session = none ∨ sessionIdOf session = some "") :
    sessionKey session p = "project-" ++ p.name ∧
    (∀ (w : World) (c : CtlId) (t : TermId) (b : Bool),
      (w.controllers c).cleanup = some ⟨some p, session, b⟩ →
      (w.controllers c).terminal = some t →
      (runCleanup c w).shellSessions.get ("project-" ++ p.name) =
        some ⟨t, (w.controllers c).fitAddon, (w.controllers c).ws, b⟩) ∧
    (∀ (w : World) (c : CtlId) (snap : Controller) (r : Record),
      snap.selectedProject = some p → snap.selectedSession = session →
      snap.isRestarting = false →
      w.shellSessions.get ("project-" ++ p.name) = some r →
      (w.controllers c).terminal = none →
      ((mountEffect c snap false w).controllers c).terminal = some r.terminal) := by
  have hk : sessionKey session p = "project-" ++ p.name := orString_of_falsy _ _ h
  refine ⟨hk, ?_, ?_⟩
  · intro w c t b hc ht
    simp [runCleanup, hc, ht, hk, World.setSessions, World.setCtl, World.emit,
      Registry.get_set]
  · intro w c snap r hp hs hr hg ht
    simp [mountEffect, hp, hs, hr, hk, hg, ht, World.setCtl, World.schedule, World.emit,
      World.setTerm, upd]
    split <;> simp [World.emit, upd]

/-- Witness of C7. -/
theorem fallback_key_witness :
    (sessionIdOf none = none ∨ sessionIdOf none = some "") ∧
    sessionKey none demo = "project-" ++ demo.name ∧
    (runCleanup 0 restartedWorld).shellSessions.get ("project-" ++ demo.name) =
      some ⟨1, (restartedWorld.controllers 0).fitAddon, (restartedWorld.controllers 0).ws,
        false⟩ ∧
    ((mountEffect 1 (Controller.initial (some demo) none true) false
        (step (.unmount 0) mountedWorld)).controllers 1).terminal =
      some (idleRecord 0).terminal :=
  ⟨Or.inl rfl, (fallback_key demo none (Or.inl rfl)).1,
    (fallback_key demo none (Or.inl rfl)).2.1 restartedWorld 0 1 false (by decide) (by decide),
    (fallback_key demo none (Or.inl rfl)).2.2 (step (.unmount 0) mountedWorld) 1
      (Controller.initial (some demo) none true) (idleRecord 0) rfl rfl rfl (by decide)
      (by decide)⟩

/-- Counterexample of C8: the same session identifier under two projects with
different names yields one and the same key. -/
theorem same_session_two_projects_same_key :
    demo.name ≠ otherProject.name ∧
    sessionKey (some sessionOne) demo = sessionKey (some sessionOne) otherProject := by
  decide

/-- Claim C8 (amended): two inputs that both carry a non-empty session identifier
have the same key exactly when the identifiers are equal, whatever the
projects; two inputs that carry none have the same key exactly when the
project names are equal. -/
theorem sessionKey_eq_iff (p1 p2 : Project) (s1 s2 : Option Session) :
    (truthy (sessionIdOf s1) = true → truthy (sessionIdOf s2) = true →
      (sessionKey s1 p1 = sessionKey s2 p2 ↔ sessionIdOf s1 = sessionIdOf s2)) ∧
    (truthy (sessionIdOf s1) = false → truthy (sessionIdOf s2) = false →
      (sessionKey s1 p1 = sessionKey s2 p2 ↔ p1.name = p2.name)) := by
  constructor
  · intro h1 h2
    cases ha : sessionIdOf s1 with
    | none => simp [ha, truthy] at h1
    | some a =>
      cases hb : sessionIdOf s2 with
      | none => simp [hb, truthy] at h2
      | some b =>
        have ha' : ¬ a = "" := by simpa [ha, truthy] using h1
        have hb' : ¬ b = "" := by simpa [hb, truthy] using h2
        simp [sessionKey, orString, ha, hb, ha', hb']
  · intro h1 h2
    have e1 : sessionIdOf s1 = none ∨ sessionIdOf s1 = some "" := by
      cases ha : sessionIdOf s1 with
      | none => exact Or.inl rfl
      | some a => right; simpa [ha, truthy] using h1
    have e2 : sessionIdOf s2 = none ∨ sessionIdOf s2 = some "" := by
      cases hb : sessionIdOf s2 with
      | none => exact Or.inl rfl
      | some b => right; simpa [hb, truthy] using h2
    rw [sessionKey, sessionKey, orString_of_falsy _ _ e1, orString_of_falsy _ _ e2]
    constructor
    · intro h
      exact append_left_cancel_string _ _ _ h
    · intro h
      rw [h]

/-- Witness of C8. -/
theorem sessionKey_eq_iff_witness :
    truthy (sessionIdOf (some sessionOne)) = true ∧
    truthy (sessionIdOf (some sessionTwo)) = true ∧
    (sessionKey (some sessionOne) demo = sessionKey (some sessionTwo) otherProject ↔
      sessionIdOf (some sessionOne) = sessionIdOf (some sessionTwo)) ∧
    truthy (sessionIdOf none) = false ∧
    (sessionKey none demo = sessionKey none otherProject ↔ demo.name = otherProject.name) :=
  ⟨by decide, by decide,
    (sessionKey_eq_iff demo otherProject (some sessionOne) (some sessionTwo)).1
      (by decide) (by decide),
    by decide,
    (sessionKey_eq_iff demo otherProject none none).2 (by decide) (by decide)⟩

/-- Claim C10: an `output` frame with string payload `d` adds to the trace exactly
one write of `d` itself to the current surface (nothing when there is none)
and changes nothing else; the URL inspection leaves no mark. -/
theorem output_written_verbatim (w : World) (s : SockId) (d : String) (url : Payload) :
    onmessage s (.parsed (some "output") (.str d) url) w =
      { w with trace := w.trace ++
          match (w.controllers (w.sockets s).owner).terminal with
          | some t => [Effect.termWrite t d]
          | none => [] } := by
  simp only [onmessage]
  cases (w.controllers (w.sockets s).owner).terminal <;> simp [World.emit]

/-! ## Frames, disconnects and closes -/

theorem commit_of_unchanged (c : CtlId) (prev : Controller) (b : Bool) (w : World)
    (h1 : prev.isRestarting = (w.controllers c).isRestarting)
    (h2 : prev.isInitialized = (w.controllers c).isInitialized)
    (h3 : prev.fontSize = (w.controllers c).fontSize)
    (h4 : sessionIdOf prev.selectedSession = sessionIdOf (w.controllers c).selectedSession)
    (h5 : prev.isActive = (w.controllers c).isActive) :
    commit c prev false b w = w := by
  simp [commit, h1, h2, h3, h4, h5]

theorem commit2_of_unchanged (c : CtlId) (prev : Controller) (w : World)
    (h1 : prev.isRestarting = (w.controllers c).isRestarting)
    (h2 : prev.isInitialized = (w.controllers c).isInitialized)
    (h3 : prev.fontSize = (w.controllers c).fontSize)
    (h4 : sessionIdOf prev.selectedSession = sessionIdOf (w.controllers c).selectedSession)
    (h5 : prev.isActive = (w.controllers c).isActive) :
    commit2 c prev false false w = w := by
  simp only [commit2]
  rw [commit_of_unchanged c prev false w h1 h2 h3 h4 h5]
  exact commit_same c false w

theorem upd_same {α : Type} (f : Nat → α) (i : Nat) (v : α) : upd f i v i = v := by
  simp [upd]

theorem disconnect_controller (c : CtlId) (w : World) :
    (disconnectFromShell c w).controllers c =
      { w.controllers c with ws := none, isConnected := false, isConnecting := false } := by
  simp only [disconnectFromShell]
  repeat' split
  all_goals simp_all [World.setCtl, World.emit, World.closeSocket, World.setSock, upd]

/-- Claim C11: a message whose text is not valid JSON leaves the whole page as it
is: nothing is written, no socket is closed and no state changes; the handler
returns normally (the exception of `JSON.parse` ends in the empty `catch`). -/
theorem malformed_message_dropped (w : World) (s : SockId) :
    onmessage s .malformed w = w ∧ step (.socketMessage s .malformed) w = w := by
  refine ⟨rfl, ?_⟩
  simp only [step, onmessage]
  split <;> rfl

/-- Claim C12: with a socket `s` and a surface `t` held, Disconnect calls `close` on
`s`, then `clear` on `t`, then writes `ESC[2J ESC[H` to `t`; afterwards the
socket handle is absent, the socket is no longer open or connecting,
`isConnected` and `isConnecting` are false, and `isInitialized` and the surface
handle are as before. -/
theorem disconnect_closes_and_clears (w : World) (c : CtlId) (s : SockId) (t : TermId)
    (hs : (w.controllers c).ws = some s) (ht : (w.controllers c).terminal = some t) :
    (disconnectFromShell c w).trace =
      w.trace ++ [.sockClose s, .termClear t, .termWrite t "\x1b[2J\x1b[H"] ∧
    ((disconnectFromShell c w).controllers c).ws = none ∧
    ((disconnectFromShell c w).controllers c).isConnected = false ∧
    ((disconnectFromShell c w).controllers c).isConnecting = false ∧
    ((disconnectFromShell c w).controllers c).isInitialized = (w.controllers c).isInitialized ∧
    ((disconnectFromShell c w).controllers c).terminal = some t ∧
    ((disconnectFromShell c w).sockets s).readyState ≠ .isOpen ∧
    ((disconnectFromShell c w).sockets s).readyState ≠ .connecting ∧
    (step (.clickDisconnect c) w = w ∨
      step (.clickDisconnect c) w = disconnectFromShell c w) := by
  have hc := disconnect_controller c w
  refine ⟨?_, by rw [hc], by rw [hc], by rw [hc], by rw [hc], by rw [hc]; exact ht, ?_, ?_, ?_⟩
  · simp [disconnectFromShell, hs, ht, World.setCtl, World.emit, World.closeSocket,
      World.setSock, upd, resetSequence]
  · simp only [disconnectFromShell, hs, ht, World.setCtl, World.emit, World.closeSocket,
      World.setSock, upd]
    cases h : (w.sockets s).readyState <;> simp [h, upd]
  · simp only [disconnectFromShell, hs, ht, World.setCtl, World.emit, World.closeSocket,
      World.setSock, upd]
    cases h : (w.sockets s).readyState <;> simp [h, upd]
  · simp only [step]
    split
    · right
      exact commit2_of_unchanged c _ _ (by rw [hc]) (by rw [hc]) (by rw [hc]) (by rw [hc])
        (by rw [hc])
    · left; rfl

/-- Witness of C12. -/
theorem disconnect_closes_and_clears_witness :
    (connectedWorld.controllers 0).ws = some 0 ∧
    (connectedWorld.controllers 0).terminal = some 0 ∧
    (disconnectFromShell 0 connectedWorld).trace =
      connectedWorld.trace ++ [.sockClose 0, .termClear 0, .termWrite 0 "\x1b[2J\x1b[H"] :=
  ⟨by decide, by decide,
    (disconnect_closes_and_clears connectedWorld 0 0 0 (by decide) (by decide)).1⟩

/-- Claim C17: with a non-empty token, Connect in a state that is not
Initialized(disconnected) changes nothing: no socket, no configuration
request, no flag. -/
theorem connect_outside_initialized (w : World) (c : CtlId) (tok : String)
    (ht : tok ≠ "")
    (h : (w.controllers c).isInitialized = false ∨ (w.controllers c).isConnected = true ∨
      (w.controllers c).isConnecting = true) :
    connectToShell c (some tok) w = w ∧ step (.clickConnect c (some tok)) w = w := by
  have h1 : connectToShell c (some tok) w = w := by
    rcases h with h | h | h <;> simp [connectToShell, truthy, ht, h]
  refine ⟨h1, ?_⟩
  simp only [step, h1, commit2_same]
  split <;> rfl

/-- Witness of C17. -/
theorem connect_outside_initialized_witness :
    "tok2" ≠ "" ∧
    ((connectedWorld.controllers 0).isInitialized = false ∨
      (connectedWorld.controllers 0).isConnected = true ∨
      (connectedWorld.controllers 0).isConnecting = true) ∧
    (connectToShell 0 (some "tok2") connectedWorld = connectedWorld ∧
      step (.clickConnect 0 (some "tok2")) connectedWorld = connectedWorld) :=
  ⟨by decide, Or.inr (Or.inl (by decide)),
    connect_outside_initialized connectedWorld 0 "tok2" (by decide) (Or.inr (Or.inl (by decide)))⟩

/-- Claim C13 (evaluated at the failing input): Disconnect is issued (by the
session-change effect) while the configuration request is pending; it finds no
socket to close. The request then settles, the socket is constructed and
opens, `close` is never called on it and the instance is Connected without a
second Connect. When the socket was already constructed, Disconnect closes it
and it never opens. -/
theorem disconnect_while_pending_still_connects :
    (connectingOnSessionOne.controllers 0).isConnecting = true ∧
    switchedWhilePending.trace = connectingOnSessionOne.trace ++
      [.termClear 0, .termWrite 0 resetSequence] ∧
    (switchedWhilePending.controllers 0).isConnecting = false ∧
    (switchedWhilePending.controllers 0).ws = none ∧
    switchedWhilePending.fetches.length = 1 ∧
    ((run [.fetchSettled 0 .failed devLocation none, .socketOpen 0]
        switchedWhilePending).controllers 0).isConnected = true ∧
    ((run [.fetchSettled 0 .failed devLocation none, .socketOpen 0]
        switchedWhilePending).controllers 0).ws = some 0 ∧
    ((run [.fetchSettled 0 .failed devLocation none, .socketOpen 0]
        switchedWhilePending).sockets 0).readyState = .isOpen ∧
    (run [.fetchSettled 0 .failed devLocation none, .socketOpen 0]
        switchedWhilePending).trace.contains (.sockClose 0) = false ∧
    (switchedWhileOpening.sockets 0).readyState = .closing ∧
    switchedWhileOpening.trace.contains (.sockClose 0) = true ∧
    step (.socketOpen 0) switchedWhileOpening = switchedWhileOpening ∧
    (switchedWhileOpening.controllers 0).isConnected = false := by
  have h : (switchedWhileOpening.sockets 0).readyState = .closing := by decide
  have hs : step (.socketOpen 0) switchedWhileOpening = switchedWhileOpening := by
    simp [step, h]
  refine ⟨?_, ?_, ?_, ?_, ?_, ?_, ?_, ?_, ?_, ?_, ?_, hs, ?_⟩
  all_goals decide

/-- Counterexample of C14: on a close with code 1006 and reason `gone` the
error line is not written before the reset sequence; it is written after it. -/
theorem close_error_line_not_before_reset :
    writtenBefore (.termWrite 0 (closedMessage "gone" 1006)) (.termWrite 0 "\x1b[2J\x1b[H")
      ((step (.socketClose 0 1006 "gone") connectedWorld).trace.drop
        connectedWorld.trace.length) = false ∧
    writtenBefore (.termWrite 0 "\x1b[2J\x1b[H") (.termWrite 0 (closedMessage "gone" 1006))
      ((step (.socketClose 0 1006 "gone") connectedWorld).trace.drop
        connectedWorld.trace.length) = true := by
  decide

/-- Claim C14 (amended): on a close whose code is not 1000, with a surface `t`, the
handler calls `clear`, writes the reset sequence `ESC[2J ESC[H`, and then
writes the error line, which names the reported reason when there is one. -/
theorem close_error_line_after_reset (w : World) (s : SockId) (code : Nat) (reason : String)
    (t : TermId) (hc : code ≠ 1000)
    (ht : (w.controllers (w.sockets s).owner).terminal = some t) :
    (onclose s code reason w).trace =
      w.trace ++ [.termClear t, .termWrite t "\x1b[2J\x1b[H",
        .termWrite t (closedMessage reason code)] ∧
    (reason ≠ "" →
      closedMessage reason code = "\x1b[1;31mConnection closed: " ++ reason ++ "\x1b[0m\r\n") := by
  constructor
  · have ht2 : ((w.setCtl (w.sockets s).owner
        (fun k => { k with isConnected := false, isConnecting := false })).controllers
        (w.sockets s).owner).terminal = some t := by
      simp [World.setCtl, upd, ht]
    simp only [onclose, ht2]
    simp [hc, World.emit, World.setCtl, resetSequence]
  · intro hr
    simp [closedMessage, orString, hr]

/-- Witness of C14. -/
theorem close_error_line_after_reset_witness :
    (1006 : Nat) ≠ 1000 ∧
    (connectedWorld.controllers (connectedWorld.sockets 0).owner).terminal = some 0 ∧
    (onclose 0 1006 "gone" connectedWorld).trace =
      connectedWorld.trace ++ [.termClear 0, .termWrite 0 "\x1b[2J\x1b[H",
        .termWrite 0 (closedMessage "gone" 1006)] :=
  ⟨by decide, by decide,
    (close_error_line_after_reset connectedWorld 0 1006 "gone" 0 (by decide) (by decide)).1⟩

/-- Counterexample of C15: after a close with code 1000 the instance still holds
the handle of the closed socket; after Disconnect the handle is absent. -/
theorem normal_close_keeps_socket_handle :
    (connectedWorld.controllers 0).isConnected = true ∧
    ((step (.socketClose 0 1000 "") connectedWorld).controllers 0).ws = some 0 ∧
    ((step (.clickDisconnect 0) connectedWorld).controllers 0).ws = none := by
  decide

/-- Claim C15 (amended): a close with code 1000 and Disconnect apply the same
operations to the surface and leave `isConnected`, `isConnecting`,
`isInitialized` and the surface handle equal; Disconnect drops the socket
handle, the close leaves it as it was. -/
theorem normal_close_like_disconnect (w : World) (s : SockId) (reason : String) :
    surfaceOps (onclose s 1000 reason w).trace =
      surfaceOps (disconnectFromShell (w.sockets s).owner w).trace ∧
    ((onclose s 1000 reason w).controllers (w.sockets s).owner).isConnected =
      ((disconnectFromShell (w.sockets s).owner w).controllers (w.sockets s).owner).isConnected ∧
    ((onclose s 1000 reason w).controllers (w.sockets s).owner).isConnecting =
      ((disconnectFromShell (w.sockets s).owner w).controllers (w.sockets s).owner).isConnecting ∧
    ((onclose s 1000 reason w).controllers (w.sockets s).owner).isInitialized =
      ((disconnectFromShell (w.sockets s).owner w).controllers (w.sockets s).owner).isInitialized ∧
    ((onclose s 1000 reason w).controllers (w.sockets s).owner).terminal =
      ((disconnectFromShell (w.sockets s).owner w).controllers (w.sockets s).owner).terminal ∧
    ((onclose s 1000 reason w).controllers (w.sockets s).owner).ws =
      (w.controllers (w.sockets s).owner).ws ∧
    ((disconnectFromShell (w.sockets s).owner w).controllers (w.sockets s).owner).ws = none := by
  have hd := disconnect_controller (w.sockets s).owner w
  have hk : (onclose s 1000 reason w).controllers (w.sockets s).owner =
      { w.controllers (w.sockets s).owner with isConnected := false, isConnecting := false } := by
    simp only [onclose]
    split <;> simp [World.setCtl, World.emit, upd]
  refine ⟨?_, by rw [hk, hd], by rw [hk, hd], by rw [hk, hd], by rw [hk, hd], by rw [hk],
    by rw [hd]⟩
  simp only [onclose, disconnectFromShell]
  cases h1 : (w.controllers (w.sockets s).owner).terminal <;>
    cases h2 : (w.controllers (w.sockets s).owner).ws <;>
    simp [h1, h2, World.setCtl, World.emit, World.closeSocket, World.setSock, upd, surfaceOps,
      List.filter_append, Effect.isSurfaceOp]

/-- Claim C20 (evaluated at the failing input): the surface was created by a first
instance and is reused by a second one, which connects; the socket is open, but
the `onData` handler of the surface reads the socket ref of the first
instance, which is empty, so the input events send nothing. On the instance
that created its surface the same events send one frame each, in order. -/
theorem input_after_reuse_is_dropped :
    (reusedConnectedWorld.controllers 1).terminal = some 0 ∧
    (reusedConnectedWorld.controllers 1).ws = some 0 ∧
    (reusedConnectedWorld.sockets 0).readyState = .isOpen ∧
    (reusedConnectedWorld.terminals 0).dataOwner = some 0 ∧
    (reusedConnectedWorld.controllers 0).ws = none ∧
    (run [.surfaceData 0 "l", .surfaceData 0 "s"] reusedConnectedWorld).trace =
      reusedConnectedWorld.trace ∧
    (run [.surfaceData 0 "l", .surfaceData 0 "s"] connectedWorld).trace =
      connectedWorld.trace ++ [.sockSend 0 (.input "l"), .sockSend 0 (.input "s")] := by
  decide

/-! ## Where `isConnected` is set -/

theorem noRise_connectToShell (c : CtlId) (token : Option String) :
    NoRise (connectToShell c token) := by
  intro w k h
  simp only [connectToShell, connectWebSocket] at h
  repeat' split at h
  all_goals
    try simp only [World.setCtl, World.emit, World.schedule, World.closeSocket, World.setSock,
      World.setSessions, World.setTerm, World.addFetch, World.newSock, World.newTerm, upd] at h
    first
      | exact h
      | (split_ifs at h; all_goals simp_all)

theorem noRise_connectContinue (f : Fetch) (r : FetchResult) (loc : Location) (err : Option String) :
    NoRise (connectContinue f r loc err) := by
  intro w k h
  simp only [connectContinue] at h
  repeat' split at h
  all_goals
    try simp only [World.setCtl, World.emit, World.schedule, World.closeSocket, World.setSock,
      World.setSessions, World.setTerm, World.addFetch, World.newSock, World.newTerm, upd] at h
    first
      | exact h
      | (split_ifs at h; all_goals simp_all)

theorem noRise_onmessage (s : SockId) (msg : Inbound) :
    NoRise (onmessage s msg) := by
  intro w k h
  simp only [onmessage] at h
  repeat' split at h
  all_goals exact h

theorem noRise_onclose (s : SockId) (code : Nat) (reason : String) :
    NoRise (onclose s code reason) := by
  intro w k h
  simp only [onclose] at h
  repeat' split at h
  all_goals
    try simp only [World.setCtl, World.emit, World.schedule, World.closeSocket, World.setSock,
      World.setSessions, World.setTerm, World.addFetch, World.newSock, World.newTerm, upd] at h
    first
      | exact h
      | (split_ifs at h; all_goals simp_all)

theorem noRise_onerror (s : SockId) :
    NoRise (onerror s) := by
  intro w k h
  simp only [onerror] at h
  repeat' split at h
  all_goals
    try simp only [World.setCtl, World.emit, World.schedule, World.closeSocket, World.setSock,
      World.setSessions, World.setTerm, World.addFetch, World.newSock, World.newTerm, upd] at h
    first
      | exact h
      | (split_ifs at h; all_goals simp_all)

theorem noRise_disconnect (c : CtlId) :
    NoRise (disconnectFromShell c) := by
  intro w k h
  simp only [disconnectFromShell] at h
  repeat' split at h
  all_goals
    try simp only [World.setCtl, World.emit, World.schedule, World.closeSocket, World.setSock,
      World.setSessions, World.setTerm, World.addFetch, World.newSock, World.newTerm, upd] at h
    first
      | exact h
      | (split_ifs at h; all_goals simp_all)

theorem noRise_restartShell (c : CtlId) :
    NoRise (restartShell c) := by
  intro w k h
  simp only [restartShell] at h
  repeat' split at h
  all_goals
    try simp only [World.setCtl, World.emit, World.schedule, World.closeSocket, World.setSock,
      World.setSessions, World.setTerm, World.addFetch, World.newSock, World.newTerm, upd] at h
    first
      | exact h
      | (split_ifs at h; all_goals simp_all)

theorem noRise_sessionChangeEffect (c : CtlId) (snap : Controller) :
    NoRise (sessionChangeEffect c snap) := by
  intro w k h
  simp only [sessionChangeEffect, disconnectFromShell] at h
  repeat' split at h
  all_goals
    try simp only [World.setCtl, World.emit, World.schedule, World.closeSocket, World.setSock,
      World.setSessions, World.setTerm, World.addFetch, World.newSock, World.newTerm, upd] at h
    first
      | exact h
      | (split_ifs at h; all_goals simp_all)

theorem noRise_createSurface (c : CtlId) (snap : Controller) (p : Project) :
    NoRise (createSurface c snap p) := by
  intro w k h
  simp only [createSurface, World.setCtl, World.emit, World.schedule, World.newTerm, upd] at h
  split_ifs at h
  all_goals simp_all

theorem noRise_runCleanup (c : CtlId) :
    NoRise (runCleanup c) := by
  intro w k h
  simp only [runCleanup] at h
  repeat' split at h
  all_goals
    try simp only [World.setCtl, World.emit, World.schedule, World.closeSocket, World.setSock,
      World.setSessions, World.setTerm, World.addFetch, World.newSock, World.newTerm, upd] at h
    first
      | exact h
      | (split_ifs at h; all_goals simp_all)

theorem noRise_activeEffect (c : CtlId) (snap : Controller) :
    NoRise (activeEffect c snap) := by
  intro w k h
  simp only [activeEffect] at h
  repeat' split at h
  all_goals exact h

theorem noRise_fontSizeEffect (c : CtlId) (snap : Controller) :
    NoRise (fontSizeEffect c snap) := by
  intro w k h
  simp only [fontSizeEffect] at h
  repeat' split at h
  all_goals exact h

theorem noRise_checkMobile (c : CtlId) (mobile : Bool) :
    NoRise (checkMobile c mobile) := by
  intro w k h
  simp only [checkMobile] at h
  repeat' split at h
  all_goals
    try simp only [World.setCtl, World.emit, World.schedule, World.closeSocket, World.setSock,
      World.setSessions, World.setTerm, World.addFetch, World.newSock, World.newTerm, upd] at h
    first
      | exact h
      | (split_ifs at h; all_goals simp_all)

theorem noRise_increaseFontSize (c : CtlId) :
    NoRise (increaseFontSize c) := by
  intro w k h
  simp only [increaseFontSize, World.setCtl, World.emit, World.schedule, World.newTerm, upd] at h
  split_ifs at h
  all_goals simp_all

theorem noRise_decreaseFontSize (c : CtlId) :
    NoRise (decreaseFontSize c) := by
  intro w k h
  simp only [decreaseFontSize, World.setCtl, World.emit, World.schedule, World.newTerm, upd] at h
  split_ifs at h
  all_goals simp_all

theorem noRise_onData (t : TermId) (d : String) :
    NoRise (onData t d) := by
  intro w k h
  simp only [onData, sendIfOpen] at h
  repeat' split at h
  all_goals exact h

theorem noRise_onHostResize (c : CtlId) :
    NoRise (onHostResize c) := by
  intro w k h
  simp only [onHostResize] at h
  repeat' split at h
  all_goals exact h

theorem noRise_sendCommand (c : CtlId) (cmd : String) :
    NoRise (sendCommand c cmd) := by
  intro w k h
  simp only [sendCommand, sendIfOpen] at h
  repeat' split at h
  all_goals exact h

theorem noRise_clearTerminal (c : CtlId) :
    NoRise (clearTerminal c) := by
  intro w k h
  simp only [clearTerminal] at h
  repeat' split at h
  all_goals exact h

theorem noRise_runTimer (t : Timer) (d : Nat × Nat) :
    NoRise (runTimer t d) := by
  intro w k h
  cases t <;>
    simp only [runTimer, fitThenResize, fitOnly, resizeIfOpen, sendIfOpen, openFitTimer,
      initSendTimer, World.fit] at h
  all_goals repeat' split at h
  all_goals
    try simp only [World.setCtl, World.emit, World.schedule, World.closeSocket, World.setSock,
      World.setSessions, World.setTerm, World.addFetch, World.newSock, World.newTerm, upd] at h
    first
      | exact h
      | (split_ifs at h; all_goals simp_all)

theorem mountEffect_rise (c : CtlId) (snap : Controller) (b : Bool) (w : World) (k : CtlId)
    (h : ((mountEffect c snap b w).controllers k).isConnected = true) :
    (w.controllers k).isConnected = true ∨
      ∃ p r, snap.selectedProject = some p ∧
        w.shellSessions.get (sessionKey snap.selectedSession p) = some r ∧
        r.isConnected = true := by
  simp only [mountEffect, createSurface] at h
  repeat' split at h
  all_goals
    try simp only [World.setCtl, World.emit, World.schedule, World.closeSocket, World.setSock,
      World.setSessions, World.setTerm, World.addFetch, World.newSock, World.newTerm, upd] at h
    first
      | exact Or.inl h
      | (split_ifs at h
         all_goals first
           | exact Or.inl h
           | exact Or.inr ⟨_, _, ‹_›, ‹_›, h⟩
           | simp_all)

/-- Claim C16: from Initialized(disconnected) with a non-empty token, Connect sets
`isConnecting`, leaves `isConnected` false and only starts the configuration
request; the construction of the socket leaves `isConnected` as it is; the
`open` handler sets `isConnected` and clears `isConnecting` while sending
nothing (it only schedules the first timer); the timers that later send the
init frame leave every instance as it is. No other handler, effect or timer
takes `isConnected` from false to true, except the reuse branch of the mount
effect, which copies the flag of the stored record. -/
theorem connected_only_on_open (w : World) (c : CtlId) (tok : String) (ht : tok ≠ "")
    (hi : (w.controllers c).isInitialized = true) (hc : (w.controllers c).isConnected = false)
    (hg : (w.controllers c).isConnecting = false) :
    (((connectToShell c (some tok) w).controllers c).isConnecting = true ∧
      ((connectToShell c (some tok) w).controllers c).isConnected = false ∧
      (connectToShell c (some tok) w).fetches = w.fetches ++
        [⟨c, tok, (w.controllers c).selectedProject, (w.controllers c).selectedSession⟩] ∧
      (connectToShell c (some tok) w).constructed = w.constructed) ∧
    (∀ (f : Fetch) (r : FetchResult) (loc : Location) (v : World),
      ((connectContinue f r loc none v).controllers f.owner).isConnected =
        (v.controllers f.owner).isConnected ∧
      ((connectContinue f r loc none v).controllers f.owner).ws = some v.nextSock) ∧
    (∀ (s : SockId) (v : World),
      ((onopen s v).controllers (v.sockets s).owner).isConnected = true ∧
      ((onopen s v).controllers (v.sockets s).owner).isConnecting = false ∧
      (onopen s v).trace = v.trace ∧ (onopen s v).timers = v.timers ++ [.openFit s]) ∧
    (∀ (s : SockId) (d : Nat × Nat) (v : World),
      (openFitTimer s d v).controllers = v.controllers ∧
      (initSendTimer s v).controllers = v.controllers) ∧
    ((∀ k token, NoRise (connectToShell k token)) ∧
      (∀ f r loc err, NoRise (connectContinue f r loc err)) ∧
      (∀ t d, NoRise (runTimer t d)) ∧
      (∀ s msg, NoRise (onmessage s msg)) ∧
      (∀ s code reason, NoRise (onclose s code reason)) ∧
      (∀ s, NoRise (onerror s)) ∧
      (∀ k, NoRise (disconnectFromShell k)) ∧
      (∀ k, NoRise (restartShell k)) ∧
      (∀ k snap, NoRise (sessionChangeEffect k snap)) ∧
      (∀ k, NoRise (runCleanup k)) ∧
      (∀ k snap, NoRise (activeEffect k snap)) ∧
      (∀ k snap, NoRise (fontSizeEffect k snap)) ∧
      (∀ k mobile, NoRise (checkMobile k mobile)) ∧
      (∀ k, NoRise (increaseFontSize k)) ∧
      (∀ k, NoRise (decreaseFontSize k)) ∧
      (∀ t d, NoRise (onData t d)) ∧
      (∀ k, NoRise (onHostResize k)) ∧
      (∀ k cmd, NoRise (sendCommand k cmd)) ∧
      (∀ k, NoRise (clearTerminal k)) ∧
      (∀ k snap b v j, ((mountEffect k snap b v).controllers j).isConnected = true →
        (v.controllers j).isConnected = true ∨
          ∃ p r, snap.selectedProject = some p ∧
            v.shellSessions.get (sessionKey snap.selectedSession p) = some r ∧
            r.isConnected = true)) := by
  refine ⟨?_, ?_, ?_, ?_, ?_⟩
  · simp [connectToShell, connectWebSocket, truthy, ht, hi, hc, hg, World.setCtl, World.emit,
      World.addFetch, upd, World.constructed, List.countP_append, Effect.isNewSocket]
  · intro f r loc v
    simp [connectContinue, World.setCtl, World.emit, World.newSock, upd]
  · intro s v
    simp [onopen, World.setCtl, World.schedule, upd]
  · intro s d v
    constructor
    · simp only [openFitTimer]
      split <;> rfl
    · simp only [initSendTimer]
      repeat' split
      all_goals rfl
  · exact ⟨noRise_connectToShell, noRise_connectContinue, noRise_runTimer, noRise_onmessage,
      noRise_onclose, noRise_onerror, noRise_disconnect, noRise_restartShell,
      noRise_sessionChangeEffect, noRise_runCleanup, noRise_activeEffect,
      noRise_fontSizeEffect, noRise_checkMobile, noRise_increaseFontSize,
      noRise_decreaseFontSize, noRise_onData, noRise_onHostResize, noRise_sendCommand,
      noRise_clearTerminal, mountEffect_rise⟩

/-- Witness of C16. -/
theorem connected_only_on_open_witness :
    "tok1" ≠ "" ∧
    (mountedWorld.controllers 0).isInitialized = true ∧
    (mountedWorld.controllers 0).isConnected = false ∧
    (mountedWorld.controllers 0).isConnecting = false ∧
    ((connectToShell 0 (some "tok1") mountedWorld).controllers 0).isConnecting = true ∧
    ((connectToShell 0 (some "tok1") mountedWorld).controllers 0).isConnected = false :=
  ⟨by decide, by decide, by decide, by decide,
    (connected_only_on_open mountedWorld 0 "tok1" (by decide) (by decide) (by decide)
      (by decide)).1.1,
    (connected_only_on_open mountedWorld 0 "tok1" (by decide) (by decide) (by decide)
      (by decide)).1.2.1⟩

/-- Claim C18: when the timer of lines 560-586 runs with the captured project `p`,
a surface `t` and an open socket in the ref, it sends exactly one frame, of
type init: `projectPath` is `fullPath` when that is a non-empty string and
`path` otherwise; `sessionId` is the `id` of the captured session when that is
a non-empty string and its `sessionId` field otherwise (absent without a
session); `hasSession` is true exactly when that identifier is a non-empty
string; `cols` and `rows` are those of the surface when the timer runs. The
socket captures the props of the render that clicked Connect. -/
theorem init_frame_contents (w : World) (s cur : SockId) (p : Project) (t : TermId)
    (hp : (w.sockets s).project = some p)
    (ht : (w.controllers (w.sockets s).owner).terminal = some t)
    (hw : (w.controllers (w.sockets s).owner).ws = some cur)
    (ho : (w.sockets cur).readyState = .isOpen) :
    (∃ projectPath sessionId hasSession,
      (initSendTimer s w).trace = w.trace ++
        [.sockSend cur
          (.init projectPath sessionId hasSession (w.terminals t).cols (w.terminals t).rows)] ∧
      (∀ x, p.fullPath = some x → x ≠ "" → projectPath = some x) ∧
      (p.fullPath = none ∨ p.fullPath = some "" → projectPath = p.path) ∧
      (∀ x, sessionIdOf (w.sockets s).session = some x → x ≠ "" → sessionId = some x) ∧
      (sessionIdOf (w.sockets s).session = none ∨ sessionIdOf (w.sockets s).session = some "" →
        sessionId = (w.sockets s).session.bind (fun x => x.sessionId)) ∧
      ((w.sockets s).session = none → sessionId = none) ∧
      (hasSession = true ↔ ∃ x, sessionId = some x ∧ x ≠ "")) ∧
    (∀ (f : Fetch) (r : FetchResult) (loc : Location) (v : World),
      ((connectContinue f r loc none v).sockets v.nextSock).project = f.project ∧
      ((connectContinue f r loc none v).sockets v.nextSock).session = f.session) := by
  constructor
  · refine ⟨orOption p.fullPath p.path,
      orOption (sessionIdOf (w.sockets s).session)
        ((w.sockets s).session.bind (fun x => x.sessionId)),
      truthy (orOption (sessionIdOf (w.sockets s).session)
        ((w.sockets s).session.bind (fun x => x.sessionId))), ?_, ?_, ?_, ?_, ?_, ?_, ?_⟩
    · simp [initSendTimer, hp, ht, hw, ho, initPayload, World.emit, World.schedule]
    · intro x hx hne
      simp [orOption, truthy, hx, hne]
    · intro h
      rcases h with h | h <;> simp [orOption, truthy, h]
    · intro x hx hne
      simp [orOption, truthy, hx, hne]
    · intro h
      rcases h with h | h <;> simp [orOption, truthy, h]
    · intro h
      simp [orOption, truthy, sessionIdOf, h]
    · cases h : orOption (sessionIdOf (w.sockets s).session)
          ((w.sockets s).session.bind (fun x => x.sessionId)) with
      | none => simp [truthy]
      | some x => simp [truthy]
  · intro f r loc v
    simp [connectContinue, World.setCtl, World.emit, World.newSock, upd]

/-- Witness of C18. -/
theorem init_frame_contents_witness :
    (readyToInit.sockets 0).project = some demo ∧
    (readyToInit.controllers (readyToInit.sockets 0).owner).terminal = some 0 ∧
    (readyToInit.controllers (readyToInit.sockets 0).owner).ws = some 0 ∧
    (readyToInit.sockets 0).readyState = .isOpen ∧
    (∃ projectPath sessionId hasSession,
      (initSendTimer 0 readyToInit).trace = readyToInit.trace ++
        [.sockSend 0 (.init projectPath sessionId hasSession 100 30)] ∧
      projectPath = some "/home/demo" ∧ sessionId = some "s1" ∧ hasSession = true) := by
  refine ⟨by decide, by decide, by decide, by decide, ?_⟩
  obtain ⟨pp, sid, has, h1, h2, _, h4, _, _, h7⟩ :=
    (init_frame_contents readyToInit 0 0 demo 0 (by decide) (by decide) (by decide)
      (by decide)).1
  have hpp := h2 "/home/demo" (by decide) (by decide)
  have hsid := h4 "s1" (by decide) (by decide)
  refine ⟨pp, sid, has, ?_, hpp, hsid, h7.mpr ⟨"s1", hsid, by decide⟩⟩
  have hc : (readyToInit.terminals 0).cols = 100 := by decide
  have hr : (readyToInit.terminals 0).rows = 30 := by decide
  rw [h1, hc, hr]

/-! ## Deferred fits after host-view resizes -/

theorem sentFrames_append (l1 l2 : List Effect) :
    sentFrames (l1 ++ l2) = sentFrames l1 ++ sentFrames l2 := by
  induction l1 with
  | nil => rfl
  | cons e rest ih => cases e <;> simp [sentFrames, ih]

theorem step_hostResized {c : CtlId} {t : TermId} {s : SockId} {n : Nat} {w : World}
    (h : ResizeReady c t s n w) :
    step (.hostResized c) w = w.schedule (.observerFit c) ∧
      ResizeReady c t s (n + 1) (w.schedule (.observerFit c)) := by
  obtain ⟨ho, hf, ht, hw, hr, htm⟩ := h
  constructor
  · simp [step, onHostResize, ho, hf, ht]
  · refine ⟨ho, hf, ht, hw, hr, ?_⟩
    simp [World.schedule, htm, List.replicate_succ']

theorem step_observer_timer {c : CtlId} {t : TermId} {s : SockId} {n : Nat} {w : World}
    (size : Nat × Nat) (h : ResizeReady c t s (n + 1) w) :
    step (.timer 0 size false) w =
        ((w.dropTimer 0).fit t size).emit (.sockSend s (.resize size.1 size.2)) ∧
      ResizeReady c t s n
        (((w.dropTimer 0).fit t size).emit (.sockSend s (.resize size.1 size.2))) := by
  obtain ⟨ho, hf, ht, hw, hr, htm⟩ := h
  have hget : w.timers.get? 0 = some (.observerFit c) := by
    rw [htm]
    rfl
  have hrun : fitThenResize c size (w.dropTimer 0) =
      ((w.dropTimer 0).fit t size).emit (.sockSend s (.resize size.1 size.2)) := by
    simp [fitThenResize, resizeIfOpen, sendIfOpen, World.openSocketOf, World.dropTimer,
      World.fit, World.emit, World.setTerm, hf, ht, hw, hr, upd]
  constructor
  · simp only [step, hget, World.timerOwner, runTimer, hrun]
    exact commit2_of_unchanged c _ _ rfl rfl rfl rfl rfl
  · refine ⟨ho, hf, ht, hw, hr, ?_⟩
    simp [World.emit, World.fit, World.setTerm, World.dropTimer, htm, List.replicate_succ]

theorem step_timer_idle {c : CtlId} {t : TermId} {s : SockId} {w : World}
    (size : Nat × Nat) (h : ResizeReady c t s 0 w) :
    step (.timer 0 size false) w = w := by
  obtain ⟨_, _, _, _, _, htm⟩ := h
  have hget : w.timers.get? 0 = none := by
    rw [htm]
    rfl
  simp only [step, hget]

theorem hostRun_frames (c : CtlId) (t : TermId) (s : SockId) (hs : List HostEvent) :
    ∀ (size : Nat × Nat) (n : Nat) (w : World), ResizeReady c t s n w →
      sentFrames (hostRun c hs size w).trace =
        sentFrames w.trace ++ deferredFrames hs size n := by
  induction hs with
  | nil =>
    intro size n w _
    simp [hostRun, deferredFrames]
  | cons e rest ih =>
    intro size n w h
    cases e with
    | resized z =>
      obtain ⟨h1, h2⟩ := step_hostResized h
      simp only [hostRun, deferredFrames, h1]
      exact ih z (n + 1) _ h2
    | timerFires =>
      cases n with
      | zero =>
        simp only [hostRun, deferredFrames, step_timer_idle size h]
        exact ih size 0 w h
      | succ m =>
        obtain ⟨h1, h2⟩ := step_observer_timer size h
        simp only [hostRun, deferredFrames, h1]
        rw [ih size m _ h2]
        simp [World.emit, World.fit, World.setTerm, World.dropTimer, sentFrames_append,
          sentFrames]

theorem deferredFrames_spaced (sizes : List (Nat × Nat)) :
    ∀ size : Nat × Nat,
      deferredFrames (spaced sizes) size 0 = sizes.map (fun z => Frame.resize z.1 z.2) := by
  induction sizes with
  | nil => intro size; rfl
  | cons z rest ih =>
    intro size
    have e : spaced (z :: rest) = .resized z :: .timerFires :: spaced rest := rfl
    rw [e]
    simp only [deferredFrames, ih z, List.map_cons]

theorem deferredFrames_fires (n : Nat) (size : Nat × Nat) :
    deferredFrames (List.replicate n .timerFires) size n =
      List.replicate n (Frame.resize size.1 size.2) := by
  induction n with
  | zero => rfl
  | succ m ih => simp [List.replicate_succ, deferredFrames, ih]

theorem deferredFrames_burst (sizes : List (Nat × Nat)) :
    ∀ (size : Nat × Nat) (n : Nat),
      deferredFrames
          (sizes.map HostEvent.resized ++ List.replicate (n + sizes.length) .timerFires) size n =
        List.replicate (n + sizes.length)
          (Frame.resize (sizes.getLastD size).1 (sizes.getLastD size).2) := by
  induction sizes with
  | nil =>
    intro size n
    simpa using deferredFrames_fires n size
  | cons z rest ih =>
    intro size n
    have h := ih z (n + 1)
    have e : n + 1 + rest.length = n + (rest.length + 1) := by omega
    rw [e] at h
    have g : (z :: rest).getLastD size = rest.getLastD z := by
      cases rest <;> simp [List.getLastD]
    show deferredFrames
        (List.map HostEvent.resized rest ++
          List.replicate (n + (rest.length + 1)) .timerFires) z (n + 1) = _
    rw [h, g]
    rfl

theorem restartedSettled_ready : ResizeReady 0 1 0 0 restartedSettled := by
  unfold ResizeReady
  decide

/-- Counterexample of C19: the instance observes its host view (its surface was
created after a Restart) and its socket is open. The host view takes size
90x25 and then 120x40 before the first deferred callback runs; both callbacks
measure 120x40, so the two frames sent are not the frames of the two
triggers: 90x25 is never sent. -/
theorem burst_resize_drops_intermediate_size :
    (restartedSettled.controllers 0).observing = true ∧
    (restartedSettled.sockets 0).readyState = .isOpen ∧
    sentFrames ((hostRun 0 [.resized (90, 25), .resized (120, 40), .timerFires, .timerFires]
        wide restartedSettled).trace.drop restartedSettled.trace.length) =
      [.resize 120 40, .resize 120 40] ∧
    triggerFrames [.resized (90, 25), .resized (120, 40), .timerFires, .timerFires] =
      [.resize 90 25, .resize 120 40] := by
  decide

/-- Claim C19 (amended): while instance `c` observes its host view and holds its
surface and an open socket, the frames sent along any timeline of resize
triggers and deferred callbacks are one resize frame per callback that runs,
in order, each carrying the size the host view has when that callback runs.
Hence N triggers that are each followed by their callback give the N sizes
in order, and N triggers that all precede the first callback give N frames
that all carry the last size. -/
theorem resize_frames_are_deferred (w : World) (c : CtlId) (t : TermId) (s : SockId)
    (h : ResizeReady c t s 0 w) :
    (∀ (timeline : List HostEvent) (size : Nat × Nat),
      sentFrames (hostRun c timeline size w).trace =
        sentFrames w.trace ++ deferredFrames timeline size 0) ∧
    (∀ (sizes : List (Nat × Nat)) (size : Nat × Nat),
      sentFrames (hostRun c (spaced sizes) size w).trace =
        sentFrames w.trace ++ sizes.map (fun z => Frame.resize z.1 z.2)) ∧
    (∀ (sizes : List (Nat × Nat)) (size : Nat × Nat),
      sentFrames (hostRun c (burst sizes) size w).trace =
        sentFrames w.trace ++
          List.replicate sizes.length
            (Frame.resize (sizes.getLastD size).1 (sizes.getLastD size).2)) := by
  refine ⟨fun timeline size => hostRun_frames c t s timeline size 0 w h, ?_, ?_⟩
  · intro sizes size
    rw [hostRun_frames c t s _ size 0 w h, deferredFrames_spaced]
  · intro sizes size
    rw [hostRun_frames c t s _ size 0 w h]
    have hb := deferredFrames_burst sizes size 0
    simp only [Nat.zero_add] at hb
    rw [burst, hb]

/-- Witness of C19. -/
theorem resize_frames_are_deferred_witness :
    ResizeReady 0 1 0 0 restartedSettled ∧
    sentFrames (hostRun 0 (spaced [(90, 25), (120, 40)]) wide restartedSettled).trace =
      sentFrames restartedSettled.trace ++ [.resize 90 25, .resize 120 40] ∧
    sentFrames (hostRun 0 (burst [(90, 25), (120, 40)]) wide restartedSettled).trace =
      sentFrames restartedSettled.trace ++ [.resize 120 40, .resize 120 40] :=
  ⟨restartedSettled_ready,
    (resize_frames_are_deferred restartedSettled 0 1 0 restartedSettled_ready).2.1
      [(90, 25), (120, 40)] wide,
    (resize_frames_are_deferred restartedSettled 0 1 0 restartedSettled_ready).2.2
      [(90, 25), (120, 40)] wide⟩

/-! ## Endpoint, failures and sends -/

/-- Claim C21: when the fetched base URL includes `localhost` and the page's host
name does not, and when the configuration request fails (or brings no base
URL), the endpoint is scheme, `//`, page host name, `:`, port,
`/shell?token=` and the encoded token, with scheme `wss:` exactly for page
protocol `https:` and port `4008` for page port `4009`; otherwise it is the
fetched base URL followed by `/shell?token=` and the encoded token. The two
same-host cases give one and the same endpoint, and the endpoint is the URL
the socket is constructed with. -/
theorem endpoint_resolution (loc : Location) (token : String) :
    (∀ u : String, jsIncludes u "localhost" = true → jsIncludes loc.hostname "localhost" = false →
      socketUrl (resolveBase (.config (some u)) loc) token =
        (if loc.protocol = "https:" then "wss:" else "ws:") ++ "//" ++ loc.hostname ++ ":" ++
          (if loc.port = "4009" then "4008" else loc.port) ++ "/shell?token=" ++
          encodeURIComponent token) ∧
    socketUrl (resolveBase .failed loc) token =
      (if loc.protocol = "https:" then "wss:" else "ws:") ++ "//" ++ loc.hostname ++ ":" ++
        (if loc.port = "4009" then "4008" else loc.port) ++ "/shell?token=" ++
        encodeURIComponent token ∧
    socketUrl (resolveBase (.config none) loc) token = socketUrl (resolveBase .failed loc) token ∧
    (∀ u : String, jsIncludes u "localhost" = true → jsIncludes loc.hostname "localhost" = false →
      socketUrl (resolveBase (.config (some u)) loc) token =
        socketUrl (resolveBase .failed loc) token) ∧
    (∀ u : String, jsIncludes u "localhost" = false ∨ jsIncludes loc.hostname "localhost" = true →
      socketUrl (resolveBase (.config (some u)) loc) token =
        u ++ "/shell?token=" ++ encodeURIComponent token) ∧
    (∀ (f : Fetch) (r : FetchResult) (w : World), f.token = token →
      (connectContinue f r loc none w).trace =
        w.trace ++ [.logUrl (redactedUrl (socketUrl (resolveBase r loc) token)),
          .newSocket w.nextSock (socketUrl (resolveBase r loc) token)]) := by
  have hs : socketUrl (resolveBase .failed loc) token =
      (if loc.protocol = "https:" then "wss:" else "ws:") ++ "//" ++ loc.hostname ++ ":" ++
        (if loc.port = "4009" then "4008" else loc.port) ++ "/shell?token=" ++
        encodeURIComponent token := by
    simp only [socketUrl, resolveBase, sameHostBase, beq_iff_eq]
  have hc : ∀ u : String, jsIncludes u "localhost" = true →
      jsIncludes loc.hostname "localhost" = false →
      socketUrl (resolveBase (.config (some u)) loc) token =
        socketUrl (resolveBase .failed loc) token := by
    intro u hu hl
    simp [socketUrl, resolveBase, hu, hl]
  refine ⟨fun u hu hl => (hc u hu hl).trans hs, hs, rfl, hc, ?_, ?_⟩
  · intro u hu
    have : (jsIncludes u "localhost" && !jsIncludes loc.hostname "localhost") = false := by
      rcases hu with h | h <;> simp [h]
    simp [socketUrl, resolveBase, this]
  · intro f r w hf
    simp [connectContinue, hf, World.emit, World.setCtl, World.newSock]

/-- Witness of C21. -/
theorem endpoint_resolution_witness :
    jsIncludes "ws://localhost:4008" "localhost" = true ∧
    jsIncludes devLocation.hostname "localhost" = false ∧
    socketUrl (resolveBase (.config (some "ws://localhost:4008")) devLocation) "a b" =
      "ws://example.com:4008/shell?token=a%20b" := by
  refine ⟨by decide, by decide, ?_⟩
  rw [(endpoint_resolution devLocation "a b").1 "ws://localhost:4008" (by decide) (by decide)]
  decide

/-- Counterexample of C22: a message that is not valid JSON arrives while a
surface exists, and nothing is written to it. -/
theorem parse_failure_writes_nothing :
    (connectedWorld.controllers (connectedWorld.sockets 0).owner).terminal = some 0 ∧
    (connectedWorld.sockets 0).readyState = .isOpen ∧
    (step (.socketMessage 0 .malformed) connectedWorld).trace = connectedWorld.trace := by
  decide

/-- Claim C22 (amended): with a surface `t` held by instance `c`, a Connect without a
token writes the authentication-required line; an exception of the socket
constructor writes the failed-to-connect line with its message; an error event
writes the connection-error line; a close with a code other than 1000 writes
the connection-closed line; a message that is not valid JSON writes nothing. -/
theorem failures_write_inline (w : World) (c : CtlId) (t : TermId)
    (ht : (w.controllers c).terminal = some t) :
    (∀ token, token = none ∨ token = some "" →
      (connectToShell c token w).trace = w.trace ++ [.termWrite t authRequiredMessage]) ∧
    (∀ (f : Fetch) (r : FetchResult) (loc : Location) (message : String), f.owner = c →
      (connectContinue f r loc (some message) w).trace =
        w.trace ++ [.logUrl (redactedUrl (socketUrl (resolveBase r loc) f.token)),
          .termWrite t (failedMessage message)]) ∧
    (∀ s, (w.sockets s).owner = c →
      (onerror s w).trace = w.trace ++ [.termWrite t errorMessage]) ∧
    (∀ s code reason, (w.sockets s).owner = c → code ≠ 1000 →
      (onclose s code reason w).trace =
        w.trace ++ [.termClear t, .termWrite t resetSequence,
          .termWrite t (closedMessage reason code)]) ∧
    (∀ s, (onmessage s .malformed w).trace = w.trace) := by
  refine ⟨?_, ?_, ?_, ?_, fun _ => rfl⟩
  · intro token h
    rcases h with h | h <;> simp [connectToShell, truthy, h, ht, World.emit]
  · intro f r loc message hf
    subst hf
    simp [connectContinue, World.emit, World.setCtl, upd, ht]
  · intro s hs
    subst hs
    simp [onerror, World.emit, World.setCtl, upd, ht]
  · intro s code reason hs hcode
    subst hs
    simp [onclose, World.emit, World.setCtl, upd, ht, hcode]

/-- Witness of C22. -/
theorem failures_write_inline_witness :
    (connectedWorld.controllers 0).terminal = some 0 ∧
    (connectedWorld.sockets 0).owner = 0 ∧
    (onerror 0 connectedWorld).trace = connectedWorld.trace ++ [.termWrite 0 errorMessage] :=
  ⟨by decide, by decide,
    (failures_write_inline connectedWorld 0 0 (by decide)).2.2.1 0 (by decide)⟩

theorem initSendTimer_of_throws (s : SockId) (w : World) (h : initSendThrows s w = true) :
    initSendTimer s w = w := by
  simp only [initSendThrows] at h
  simp only [initSendTimer]
  split
  · rename_i p t cur hp ht hc
    simp only [hp, ht, hc, beq_iff_eq] at h
    simp [h]
  · rfl

/-- Claim C23 (evaluated at the failing input): the socket has opened and the timer
that sends the init frame is pending when the user clicks Disconnect. Line 574
calls `send` on `ws.current` without testing it: the ref is empty and the
callback ends with an exception, and the resize timer that follows the send is
never scheduled. When a new attempt has put a socket that is still connecting
into the ref, the same call throws as well. -/
theorem init_send_is_unguarded :
    (readyToInit.controllers 0).isConnected = true ∧
    readyToInit.timers = [.initSend 0] ∧
    initSendThrows 0 readyToInit = false ∧
    (disconnectedBeforeInit.controllers 0).ws = none ∧
    disconnectedBeforeInit.timers = [.initSend 0] ∧
    initSendThrows 0 disconnectedBeforeInit = true ∧
    (step (.timer 0 wide false) disconnectedBeforeInit).trace = disconnectedBeforeInit.trace ∧
    (step (.timer 0 wide false) disconnectedBeforeInit).timers = [] ∧
    (reconnectingBeforeInit.controllers 0).ws = some 1 ∧
    (reconnectingBeforeInit.sockets 1).readyState = .connecting ∧
    reconnectingBeforeInit.timers = [.initSend 0] ∧
    initSendThrows 0 reconnectingBeforeInit = true := by
  decide

/-- Claim C24 (evaluated at the failing input): the observer that the fresh branch
registers (line 444) is disconnected by the cleanup in the render that
follows the first commit, and the run of the mount effect after it returns at
line 305, before line 444; the reuse branch registers none. After a mount of
either kind a change of the host view's size delivers no callback: no fit, no
timer, no frame, although the socket is open. Only a surface created after a
Restart keeps its observer. -/
theorem no_observer_after_mount :
    mountedWorld.trace = [.newTerminal 0 14, .termOpen 0, .observe 0, .unobserve 0] ∧
    (settledWorld.controllers 0).isInitialized = true ∧
    (settledWorld.sockets 0).readyState = .isOpen ∧
    (settledWorld.controllers 0).observing = false ∧
    step (.hostResized 0) settledWorld = settledWorld ∧
    (reusedConnectedWorld.controllers 1).isInitialized = true ∧
    (reusedConnectedWorld.sockets 0).readyState = .isOpen ∧
    (reusedConnectedWorld.controllers 1).observing = false ∧
    reusedConnectedWorld.trace.count (.observe 1) = 0 ∧
    step (.hostResized 1) reusedConnectedWorld = reusedConnectedWorld ∧
    (restartedSettled.controllers 0).observing = true ∧
    (step (.hostResized 0) restartedSettled).timers = [.observerFit 0] := by
  have h0 : (settledWorld.controllers 0).observing = false := by decide
  have h1 : (reusedConnectedWorld.controllers 1).observing = false := by decide
  have e0 : step (.hostResized 0) settledWorld = settledWorld := by
    simp [step, h0]
  have e1 : step (.hostResized 1) reusedConnectedWorld = reusedConnectedWorld := by
    simp [step, h1]
  refine ⟨?_, ?_, ?_, h0, e0, ?_, ?_, h1, ?_, e1, ?_, ?_⟩
  all_goals decide

/-- Claim C27 (evaluated at the failing input): the session map holds the record of
project `webapp` under `project-webapp`; the name `app` of another project is
part of that key, so the Restart purge and the session-switch purge for `app`
delete it. -/
theorem purge_deletes_other_project :
    appProject.name ≠ webappProject.name ∧
    twoProjectsWorld.shellSessions =
      [(sessionKey none webappProject, idleRecord 0),
        (sessionKey (some sessionOne) appProject, idleRecord 1)] ∧
    (step (.clickRestart 1) twoProjectsWorld).shellSessions.get
      (sessionKey none webappProject) = none ∧
    (step (.propsChange 1 (some appProject) (some sessionTwo) false)
      twoProjectsWorld).shellSessions.get (sessionKey none webappProject) = none ∧
    purgeProject twoProjectsWorld.shellSessions appProject.name =
      [(sessionKey (some sessionOne) appProject, idleRecord 1)] ∧
    purgeEach twoProjectsWorld.shellSessions appProject.name =
      [(sessionKey (some sessionOne) appProject, idleRecord 1)] := by
  decide

/-- Claim C28 (evaluated at the failing input): Disconnect dropped socket 0 and a
new Connect completed with socket 1, which is open. The close event of socket
0 then sets `isConnected` to false and clears the surface, and its error event
sets `isConnected` to false and writes the error line. When the new Connect has
only started, the close event of socket 0 sets `isConnecting` to false. -/
theorem stale_socket_events_reset_connection :
    (supersededWorld.controllers 0).ws = some 1 ∧
    (supersededWorld.sockets 1).readyState = .isOpen ∧
    (supersededWorld.controllers 0).isConnected = true ∧
    ((step (.socketClose 0 1000 "") supersededWorld).controllers 0).isConnected = false ∧
    (step (.socketClose 0 1000 "") supersededWorld).trace =
      supersededWorld.trace ++ [.termClear 0, .termWrite 0 resetSequence] ∧
    ((step (.socketError 0) supersededWorld).controllers 0).isConnected = false ∧
    (step (.socketError 0) supersededWorld).trace =
      supersededWorld.trace ++ [.termWrite 0 errorMessage] ∧
    (supersedingWorld.controllers 0).isConnecting = true ∧
    ((step (.socketClose 0 1000 "") supersedingWorld).controllers 0).isConnecting = false := by
  decide

/-! ## Font size -/

theorem increaseFontSize_value (c : CtlId) (w : World) :
    ((increaseFontSize c w).controllers c).fontSize = min ((w.controllers c).fontSize + 2) 24 := by
  simp [increaseFontSize, World.setCtl, upd]

theorem decreaseFontSize_value (c : CtlId) (w : World) :
    ((decreaseFontSize c w).controllers c).fontSize = max ((w.controllers c).fontSize - 2) 8 := by
  simp [decreaseFontSize, World.setCtl, upd]

theorem fontClicks_bounds (c : CtlId) (ops : List Bool) :
    ∀ w : World, (w.controllers c).fontSize % 2 = 0 → 8 ≤ (w.controllers c).fontSize →
      (w.controllers c).fontSize ≤ 24 →
      ((fontClicks c ops w).controllers c).fontSize % 2 = 0 ∧
        8 ≤ ((fontClicks c ops w).controllers c).fontSize ∧
        ((fontClicks c ops w).controllers c).fontSize ≤ 24 := by
  induction ops with
  | nil => intro w h1 h2 h3; exact ⟨h1, h2, h3⟩
  | cons b rest ih =>
    intro w h1 h2 h3
    cases b with
    | true =>
      have hv := increaseFontSize_value c w
      exact ih (increaseFontSize c w) (by omega) (by omega) (by omega)
    | false =>
      have hv := decreaseFontSize_value c w
      exact ih (decreaseFontSize c w) (by omega) (by omega) (by omega)

/-- Claim C30: starting from font size 14, or 12 on a mobile device, after any
sequence of clicks on the two font buttons the font size is even and between
8 and 24; the larger-font button leaves 24 as it is and the smaller-font
button leaves 8 as it is, and from any other size reached each adds or takes
exactly 2. -/
theorem font_size_bounds (w : World) (c : CtlId) (ops : List Bool)
    (h : (w.controllers c).fontSize = 14 ∨ (w.controllers c).fontSize = 12) :
    (((fontClicks c ops w).controllers c).fontSize % 2 = 0 ∧
      8 ≤ ((fontClicks c ops w).controllers c).fontSize ∧
      ((fontClicks c ops w).controllers c).fontSize ≤ 24) ∧
    (∀ v : World, (v.controllers c).fontSize = 24 →
      ((increaseFontSize c v).controllers c).fontSize = 24) ∧
    (∀ v : World, (v.controllers c).fontSize = 8 →
      ((decreaseFontSize c v).controllers c).fontSize = 8) ∧
    (∀ v : World, (v.controllers c).fontSize % 2 = 0 → 8 ≤ (v.controllers c).fontSize →
      (v.controllers c).fontSize < 24 →
      ((increaseFontSize c v).controllers c).fontSize = (v.controllers c).fontSize + 2) ∧
    (∀ v : World, (v.controllers c).fontSize % 2 = 0 → 8 < (v.controllers c).fontSize →
      (v.controllers c).fontSize ≤ 24 →
      ((decreaseFontSize c v).controllers c).fontSize + 2 = (v.controllers c).fontSize) ∧
    (Controller.initial none none false).fontSize = 14 ∧
    (∀ v : World, ((checkMobile c true v).controllers c).fontSize = 12) := by
  refine ⟨?_, ?_, ?_, ?_, ?_, rfl, ?_⟩
  · rcases h with h | h <;> exact fontClicks_bounds c ops w (by omega) (by omega) (by omega)
  · intro v hv
    rw [increaseFontSize_value, hv]
    rfl
  · intro v hv
    rw [decreaseFontSize_value, hv]
    rfl
  · intro v h1 h2 h3
    rw [increaseFontSize_value]
    omega
  · intro v h1 h2 h3
    rw [decreaseFontSize_value]
    omega
  · intro v
    simp [checkMobile, World.setCtl, upd, Controller.initial]

/-- Witness of C30. -/
theorem font_size_bounds_witness :
    ((mountedWorld.controllers 0).fontSize = 14 ∨ (mountedWorld.controllers 0).fontSize = 12) ∧
    ((fontClicks 0 [true, true, true, true, true, true, false] mountedWorld).controllers
      0).fontSize ≤ 24 ∧
    ((fontClicks 0 [true, true, true, true, true, true, false] mountedWorld).controllers
      0).fontSize = 22 :=
  ⟨Or.inl (by decide),
    (font_size_bounds mountedWorld 0 [true, true, true, true, true, true, false]
      (Or.inl (by decide))).1.2.2,
    by decide⟩

/-! ## Order of the frames of one connection -/

/-- Counterexample of C25: the socket has just opened and the timers of the open
handler have not run. Each of the following puts its frame on the socket ahead
of init: the user types `l`; the tab is left and activated again; the font
size is raised from the mobile toolbar; the host view of an observing
instance changes size; a deferred fit of the mount is still pending when the
socket opens. -/
theorem input_frame_precedes_init :
    sentFrames justOpenedWorld.trace = [] ∧
    (justOpenedWorld.sockets 0).readyState = .isOpen ∧
    sentFrames (run [.surfaceData 0 "l", .timer 0 wide false, .timer 0 wide false,
      .timer 0 wide false] justOpenedWorld).trace =
      [.input "l", .init (some "/home/demo") none false 100 30, .resize 100 30] ∧
    sentFrames (run [.setActive 0 false, .setActive 0 true, .timer 1 (90, 25) false,
      .timer 0 wide false, .timer 0 wide false, .timer 0 wide false] justOpenedWorld).trace =
      [.resize 90 25, .init (some "/home/demo") none false 100 30, .resize 100 30] ∧
    sentFrames mobileJustOpened.trace = [] ∧
    sentFrames (run [.clickFontUp 0, .timer 1 (90, 25) false, .timer 0 wide false,
      .timer 0 wide false, .timer 0 wide false] mobileJustOpened).trace =
      [.resize 90 25, .init (some "/home/demo") none false 100 30, .resize 100 30] ∧
    sentFrames restartedJustOpened.trace = [] ∧
    sentFrames (run [.hostResized 0, .timer 1 (90, 25) false, .timer 0 wide false,
      .timer 0 wide false, .timer 0 wide false] restartedJustOpened).trace =
      [.resize 90 25, .init (some "/home/demo") none false 100 30, .resize 100 30] ∧
    sentFrames connectedWorld.trace = [] ∧
    sentFrames (run [.timer 1 (90, 25) false, .timer 2 wide false, .timer 2 wide false,
      .timer 2 wide false] connectedWorld).trace =
      [.resize 90 25, .init (some "/home/demo") none false 100 30, .resize 100 30] := by
  decide

theorem step_socketOpen_quiet {w : World} {s : SockId}
    (hn : s < w.nextSock) (hc : (w.sockets s).readyState = .connecting) (hq : w.timers = []) :
    step (.socketOpen s) w =
      { w with
        sockets := upd w.sockets s { (w.sockets s) with readyState := .isOpen }
        controllers := upd w.controllers (w.sockets s).owner
          { (w.controllers (w.sockets s).owner) with isConnected := true, isConnecting := false }
        timers := [.openFit s] } := by
  simp [step, hn, hc, hq, onopen, World.setSock, World.setCtl, World.schedule, upd]

theorem commit2_unchanged (c : CtlId) (prev : Controller) (b : Bool) (w : World)
    (h1 : prev.isRestarting = (w.controllers c).isRestarting)
    (h2 : prev.isInitialized = (w.controllers c).isInitialized)
    (h3 : prev.fontSize = (w.controllers c).fontSize)
    (h4 : sessionIdOf prev.selectedSession = sessionIdOf (w.controllers c).selectedSession)
    (h5 : prev.isActive = (w.controllers c).isActive) :
    commit2 c prev false b w = w := by
  simp only [commit2]
  rw [commit_of_unchanged c prev b w h1 h2 h3 h4 h5]
  exact commit_same c false w

theorem step_openFit_timer {w : World} {s : SockId} {t : TermId} (d : Nat × Nat) (b : Bool)
    (hq : w.timers = [.openFit s])
    (hf : (w.controllers (w.sockets s).owner).fitAddon = some t)
    (ht : (w.controllers (w.sockets s).owner).terminal = some t) :
    step (.timer 0 d b) w =
      { w with
        terminals := upd w.terminals t { (w.terminals t) with cols := d.1, rows := d.2 }
        trace := w.trace ++ [.termFit t d.1 d.2]
        timers := [.initSend s] } := by
  have e : runTimer (.openFit s) d (w.dropTimer 0) =
      { w with
        terminals := upd w.terminals t { (w.terminals t) with cols := d.1, rows := d.2 }
        trace := w.trace ++ [.termFit t d.1 d.2]
        timers := [.initSend s] } := by
    simp [runTimer, openFitTimer, World.dropTimer, hq, hf, ht, World.fit, World.setTerm,
      World.emit, World.schedule]
  simp only [step, hq, List.get?, World.timerOwner, e]
  exact commit2_unchanged _ _ b _ rfl rfl rfl rfl rfl

theorem step_initSend_timer {w : World} {s : SockId} {t : TermId} {p : Project}
    (d : Nat × Nat) (b : Bool)
    (hq : w.timers = [.initSend s])
    (hp : (w.sockets s).project = some p)
    (ht : (w.controllers (w.sockets s).owner).terminal = some t)
    (hw : (w.controllers (w.sockets s).owner).ws = some s)
    (ho : (w.sockets s).readyState = .isOpen) :
    step (.timer 0 d b) w =
      { w with
        trace := w.trace ++ [.sockSend s (initPayload (w.sockets s) p (w.terminals t))]
        timers := [.initResize s] } := by
  have e : runTimer (.initSend s) d (w.dropTimer 0) =
      { w with
        trace := w.trace ++ [.sockSend s (initPayload (w.sockets s) p (w.terminals t))]
        timers := [.initResize s] } := by
    simp [runTimer, initSendTimer, World.dropTimer, hq, hp, ht, hw, ho, World.emit,
      World.schedule]
  simp only [step, hq, List.get?, World.timerOwner, e]
  exact commit2_unchanged _ _ b _ rfl rfl rfl rfl rfl

theorem step_initResize_timer {w : World} {s : SockId} {t : TermId}
    (d : Nat × Nat) (b : Bool)
    (hq : w.timers = [.initResize s])
    (ht : (w.controllers (w.sockets s).owner).terminal = some t)
    (hw : (w.controllers (w.sockets s).owner).ws = some s)
    (ho : (w.sockets s).readyState = .isOpen) :
    step (.timer 0 d b) w =
      { w with
        trace := w.trace ++ [.sockSend s (.resize (w.terminals t).cols (w.terminals t).rows)]
        timers := [] } := by
  have e : runTimer (.initResize s) d (w.dropTimer 0) =
      { w with
        trace := w.trace ++ [.sockSend s (.resize (w.terminals t).cols (w.terminals t).rows)]
        timers := [] } := by
    simp [runTimer, resizeIfOpen, sendIfOpen, World.openSocketOf, World.dropTimer, hq, ht, hw,
      ho, World.emit]
  simp only [step, hq, List.get?, World.timerOwner, e]
  exact commit2_unchanged _ _ b _ rfl rfl rfl rfl rfl

/-- Claim C25 (amended): on a connection where nothing but the timers of the open
handler runs between the open event and the init send, no frame is sent by the
open event or by the first timer, the second timer sends the init frame, with
the dimensions the first timer measured, as the first frame, and the third
timer sends a resize frame with the same dimensions. -/
theorem init_first_on_quiet_connection (w : World) (s : SockId) (t : TermId) (p : Project)
    (d d1 d2 : Nat × Nat) (b b1 b2 : Bool)
    (hn : s < w.nextSock) (hc : (w.sockets s).readyState = .connecting)
    (hw : (w.controllers (w.sockets s).owner).ws = some s)
    (hf : (w.controllers (w.sockets s).owner).fitAddon = some t)
    (ht : (w.controllers (w.sockets s).owner).terminal = some t)
    (hp : (w.sockets s).project = some p)
    (hq : w.timers = []) :
    sentFrames (step (.socketOpen s) w).trace = sentFrames w.trace ∧
    sentFrames (run [.socketOpen s, .timer 0 d b] w).trace = sentFrames w.trace ∧
    sentFrames (run [.socketOpen s, .timer 0 d b, .timer 0 d1 b1] w).trace =
      sentFrames w.trace ++
        [initPayload (w.sockets s) p { (w.terminals t) with cols := d.1, rows := d.2 }] ∧
    sentFrames (run [.socketOpen s, .timer 0 d b, .timer 0 d1 b1, .timer 0 d2 b2] w).trace =
      sentFrames w.trace ++
        [initPayload (w.sockets s) p { (w.terminals t) with cols := d.1, rows := d.2 },
          .resize d.1 d.2] := by
  have e1 := step_socketOpen_quiet hn hc hq
  have e2 : step (.timer 0 d b) (step (.socketOpen s) w) = _ :=
    step_openFit_timer (t := t) d b (by rw [e1]) (by rw [e1]; simp [upd, hf]) (by rw [e1]; simp [upd, ht])
  have e3 : step (.timer 0 d1 b1) (step (.timer 0 d b) (step (.socketOpen s) w)) = _ :=
    step_initSend_timer (t := t) (p := p) d1 b1 (by rw [e2]) (by rw [e2, e1]; simp [upd, hp])
      (by rw [e2, e1]; simp [upd, ht]) (by rw [e2, e1]; simp [upd, hw])
      (by rw [e2, e1]; simp [upd])
  have e4 : step (.timer 0 d2 b2)
      (step (.timer 0 d1 b1) (step (.timer 0 d b) (step (.socketOpen s) w))) = _ :=
    step_initResize_timer (t := t) d2 b2 (by rw [e3]) (by rw [e3, e2, e1]; simp [upd, ht])
      (by rw [e3, e2, e1]; simp [upd, hw]) (by rw [e3, e2, e1]; simp [upd])
  refine ⟨?_, ?_, ?_, ?_⟩
  · rw [e1]
  · simp only [run, List.foldl]
    rw [e2, e1]
    simp [sentFrames_append, sentFrames]
  · simp only [run, List.foldl]
    rw [e3, e2, e1]
    simp [sentFrames_append, sentFrames, initPayload, upd]
  · simp only [run, List.foldl]
    rw [e4, e3, e2, e1]
    simp [sentFrames_append, sentFrames, initPayload, upd]

/-- Witness of C25. -/
theorem init_first_on_quiet_connection_witness :
    (awaitingOpen.sockets 0).readyState = .connecting ∧
    awaitingOpen.timers = [] ∧
    sentFrames (run [.socketOpen 0, .timer 0 wide false, .timer 0 wide false,
      .timer 0 wide false] awaitingOpen).trace =
      sentFrames awaitingOpen.trace ++
        [initPayload (awaitingOpen.sockets 0) demo
          { (awaitingOpen.terminals 0) with cols := wide.1, rows := wide.2 },
          .resize wide.1 wide.2] :=
  ⟨by decide, by decide,
    (init_first_on_quiet_connection awaitingOpen 0 0 demo wide wide wide false false false
      (by decide) (by decide) (by decide) (by decide) (by decide) (by decide) (by decide)).2.2.2⟩

/-! ## Mount from a stored record -/

/-- Counterexample of C26: the instance, whose surface was created after a Restart,
was unmounted while connected and mounted again. The stored record reports not
connected, and the timer of the reuse branch still sends a resize frame with
the refitted dimensions, because the stored socket is open. -/
theorem reuse_resize_ignores_record_flag :
    remountedWhileConnected.shellSessions.get (sessionKey none demo) =
      some ⟨1, some 1, some 0, false⟩ ∧
    (remountedWhileConnected.sockets 0).readyState = .isOpen ∧
    (remountedWhileConnected.controllers 1).isConnected = false ∧
    (remountedWhileConnected.controllers 1).isInitialized = true ∧
    remountedWhileConnected.timers = [.reuseFit 1, .activeFit 1] ∧
    (step (.timer 0 (90, 25) false) remountedWhileConnected).trace =
      remountedWhileConnected.trace ++ [.termFit 1 90 25, .sockSend 0 (.resize 90 25)] := by
  decide

theorem upd_upd {α : Type} (f : Nat → α) (i : Nat) (a b : α) :
    upd (upd f i a) i b = upd f i b := by
  funext j
  simp only [upd]
  split <;> rfl

/-- Claim C26 (amended): on a mount that reuses the record `r`, `isConnected` becomes
the flag of `r`, `isInitialized` becomes true, no frame is sent by the mount,
and the timer it schedules sends one resize frame with the refitted dimensions
if and only if the socket of `r` is present and open; no init frame is sent. -/
theorem reuse_mount_resize (w : World) (c : CtlId) (snap : Controller) (p : Project)
    (r : Record) (d : Nat × Nat)
    (hp : snap.selectedProject = some p) (hr : snap.isRestarting = false)
    (hg : w.shellSessions.get (sessionKey snap.selectedSession p) = some r)
    (ht : (w.controllers c).terminal = none)
    (hf : r.fitAddon = some r.terminal) :
    ((mountEffect c snap false w).controllers c).isConnected = r.isConnected ∧
    ((mountEffect c snap false w).controllers c).isInitialized = true ∧
    sentFrames (mountEffect c snap false w).trace = sentFrames w.trace ∧
    (mountEffect c snap false w).timers = w.timers ++ [.reuseFit c] ∧
    sentFrames (runTimer (.reuseFit c) d (mountEffect c snap false w)).trace =
      sentFrames w.trace ++
        (match r.ws with
         | some s => if (w.sockets s).readyState = .isOpen then [.resize d.1 d.2] else []
         | none => []) := by
  have e : mountEffect c snap false w =
      { w with
        controllers := upd w.controllers c { (w.controllers c) with
          terminal := some r.terminal, fitAddon := r.fitAddon, ws := r.ws,
          isConnected := r.isConnected, isInitialized := true, cleanup := none }
        terminals := upd w.terminals r.terminal { (w.terminals r.terminal) with opened := true }
        timers := w.timers ++ [.reuseFit c]
        trace := (if (w.terminals r.terminal).opened then w.trace ++ [.termDetach r.terminal]
          else w.trace) ++ [.termOpen r.terminal] } := by
    simp only [mountEffect, hp, hr, hg, ht]
    by_cases ho : (w.terminals r.terminal).opened = true <;>
      simp [ho, World.setCtl, World.emit, World.setTerm, World.schedule, upd_upd, upd_same]
  have hs : sentFrames ((if (w.terminals r.terminal).opened then
      w.trace ++ [.termDetach r.terminal] else w.trace) ++ [.termOpen r.terminal]) =
      sentFrames w.trace := by
    by_cases ho : (w.terminals r.terminal).opened = true <;>
      simp [ho, sentFrames_append, sentFrames]
  have hi : sentFrames (if (w.terminals r.terminal).opened then
      w.trace ++ [.termDetach r.terminal] else w.trace) = sentFrames w.trace := by
    by_cases ho : (w.terminals r.terminal).opened = true <;>
      simp [ho, sentFrames_append, sentFrames]
  rw [e]
  refine ⟨by simp [upd], by simp [upd], hs, rfl, ?_⟩
  cases hws : r.ws with
  | none =>
    simp [runTimer, fitThenResize, resizeIfOpen, sendIfOpen, World.openSocketOf, World.fit,
      World.setTerm, World.emit, upd, hf, hws, sentFrames_append, sentFrames, hi]
  | some s =>
    by_cases hopen : (w.sockets s).readyState = .isOpen <;>
      simp [runTimer, fitThenResize, resizeIfOpen, sendIfOpen, World.openSocketOf, World.fit,
        World.setTerm, World.emit, upd, hf, hws, hopen, sentFrames_append, sentFrames, hi]

/-- Witness of C26. -/
theorem reuse_mount_resize_witness :
    (run [.unmount 0] restartedSettled).shellSessions.get (sessionKey none demo) =
      some ⟨1, some 1, some 0, false⟩ ∧
    sentFrames (runTimer (.reuseFit 1) (90, 25)
      (mountEffect 1 (Controller.initial (some demo) none true) false
        (run [.unmount 0] restartedSettled))).trace =
      sentFrames (run [.unmount 0] restartedSettled).trace ++
        (if ((run [.unmount 0] restartedSettled).sockets 0).readyState = .isOpen
          then [.resize 90 25] else []) :=
  ⟨by decide,
    (reuse_mount_resize (run [.unmount 0] restartedSettled) 1
      (Controller.initial (some demo) none true) demo ⟨1, some 1, some 0, false⟩ (90, 25)
      rfl rfl (by decide) (by decide) rfl).2.2.2.2⟩

/-! ## The logged URL -/

/-- Counterexample of C29: with the non-empty token `s` the logged string contains the
encoded token as a substring; and with a line break after a `token=` of the
base URL the logged string is not cut at `token=` and shows the token. -/
theorem logged_url_contains_short_token :
    encodeURIComponent "s" = "s" ∧
    redactedUrl (socketUrl "ws://h:1" "s") = "ws://h:1/shell?token=[REDACTED]" ∧
    jsIncludes (redactedUrl (socketUrl "ws://h:1" "s")) (encodeURIComponent "s") = true ∧
    redactedUrl (socketUrl "ws://h/?token=\n" "SECRET") =
      "ws://h/?token=[REDACTED]\n/shell?token=SECRET" := by
  decide

theorem isPrefixChars_append_slash (P : List Char) :
    ∀ X Y : List Char, '/' ∉ P → isPrefixChars P (X ++ '/' :: Y) = isPrefixChars P X := by
  induction P with
  | nil => intro X Y _; cases X <;> rfl
  | cons a as ih =>
    intro X Y h
    have ha : a ≠ '/' := fun e => h (by simp [e])
    have has : '/' ∉ as := fun e => h (by simp [e])
    cases X with
    | nil => simp [isPrefixChars, ha]
    | cons x xs =>
      show (a == x && isPrefixChars as (xs ++ '/' :: Y)) = (a == x && isPrefixChars as xs)
      rw [ih xs Y has]

theorem redactChars_of_no_terminator (L : List Char) :
    L.any isLineTerminator = false → redactChars L = replaceFromToken L := by
  induction L with
  | nil => intro _; rfl
  | cons ch rest ih =>
    intro h
    have hr : rest.any isLineTerminator = false := by
      simp only [List.any_cons, Bool.or_eq_false_iff] at h
      exact h.2
    have hd : (rest.drop 5).dropWhile (fun x => !isLineTerminator x) = [] := by
      rw [List.dropWhile_eq_nil_iff]
      intro x hx
      have hx2 := List.mem_of_mem_drop hx
      rw [List.any_eq_false] at hr
      simpa using hr x hx2
    simp only [redactChars, replaceFromToken, hd, ih hr, List.append_nil]

theorem replaceFromToken_append_slash (Y : List Char) :
    ∀ B : List Char, replaceFromToken (B ++ '/' :: Y) =
      if includesChars "token=".data B then replaceFromToken B
      else B ++ replaceFromToken ('/' :: Y) := by
  intro B
  induction B with
  | nil => simp [includesChars]
  | cons b bs ih =>
    have hp : isPrefixChars "token=".data (b :: (bs ++ '/' :: Y)) =
        isPrefixChars "token=".data (b :: bs) :=
      isPrefixChars_append_slash "token=".data (b :: bs) Y (by decide)
    have e1 : replaceFromToken (b :: (bs ++ '/' :: Y)) =
        if isPrefixChars "token=".data (b :: (bs ++ '/' :: Y)) then "token=[REDACTED]".data
        else b :: replaceFromToken (bs ++ '/' :: Y) := rfl
    have e2 : replaceFromToken (b :: bs) =
        if isPrefixChars "token=".data (b :: bs) then "token=[REDACTED]".data
        else b :: replaceFromToken bs := rfl
    have e3 : includesChars "token=".data (b :: bs) =
        (isPrefixChars "token=".data (b :: bs) || includesChars "token=".data bs) := rfl
    show replaceFromToken (b :: (bs ++ '/' :: Y)) = _
    rw [e1, e2, e3, hp, ih]
    by_cases h : isPrefixChars "token=".data (b :: bs) = true
    · rw [h]
      simp
    · have hf : isPrefixChars "token=".data (b :: bs) = false := by simpa using h
      rw [hf]
      by_cases g : includesChars "token=".data bs = true
      · rw [g]
        simp
      · have gf : includesChars "token=".data bs = false := by simpa using g
        rw [gf]
        simp

theorem char_toNat_bound (ch : Char) : ch.toNat < 0x110000 := by
  have h := ch.valid
  simp only [UInt32.isValidChar, Nat.isValidChar] at h
  show ch.val.toNat < 0x110000
  omega

theorem hexDigit_no_terminator : ∀ n, n < 16 → isLineTerminator (hexDigit n) = false := by
  decide

theorem utf8Bytes_bound (n b : Nat) (hn : n < 0x110000) (hb : b ∈ utf8Bytes n) : b < 256 := by
  simp only [utf8Bytes] at hb
  split_ifs at hb <;> simp at hb <;> omega

theorem unreserved_no_terminator (ch : Char) (h : isUnreserved ch = true) :
    isLineTerminator ch = false := by
  cases hl : isLineTerminator ch with
  | false => rfl
  | true =>
    exfalso
    simp only [isLineTerminator, Bool.or_eq_true, beq_iff_eq] at hl
    have hc : ch = Char.ofNat 10 ∨ ch = Char.ofNat 13 ∨ ch = Char.ofNat 0x2028 ∨
        ch = Char.ofNat 0x2029 := by
      rcases hl with ((hl | hl) | hl) | hl
      · exact Or.inl (by rw [← hl, Char.ofNat_toNat])
      · exact Or.inr (Or.inl (by rw [← hl, Char.ofNat_toNat]))
      · exact Or.inr (Or.inr (Or.inl (by rw [← hl, Char.ofNat_toNat])))
      · exact Or.inr (Or.inr (Or.inr (by rw [← hl, Char.ofNat_toNat])))
    rcases hc with hc | hc | hc | hc <;> subst hc <;> revert h <;> decide

theorem encodeChar_no_terminator (ch x : Char) (hx : x ∈ encodeChar ch) :
    isLineTerminator x = false := by
  simp only [encodeChar] at hx
  split_ifs at hx with hu
  · simp only [List.mem_singleton] at hx
    subst hx
    exact unreserved_no_terminator x hu
  · simp only [List.mem_flatMap, List.mem_cons, List.mem_singleton, List.not_mem_nil,
      or_false] at hx
    obtain ⟨b, hb, hx⟩ := hx
    have hb2 := utf8Bytes_bound ch.toNat b (char_toNat_bound ch) hb
    rcases hx with hx | hx | hx
    · subst hx
      decide
    · subst hx
      exact hexDigit_no_terminator _ (by omega)
    · subst hx
      exact hexDigit_no_terminator _ (by omega)

theorem encodeURIComponent_no_terminator (token : String) :
    (encodeURIComponent token).data.any isLineTerminator = false := by
  rw [List.any_eq_false]
  intro x hx
  simp only [encodeURIComponent, List.mem_flatMap] at hx
  obtain ⟨ch, _, hx⟩ := hx
  simp [encodeChar_no_terminator ch x hx]

theorem replaceFromToken_endpoint (B E : List Char) :
    replaceFromToken (B ++ "/shell?token=".data ++ E) =
      if includesChars "token=".data B then replaceFromToken B
      else B ++ "/shell?token=[REDACTED]".data := by
  have e : B ++ "/shell?token=".data ++ E = B ++ '/' :: ("shell?token=".data ++ E) := by
    simp
  have t : replaceFromToken ('/' :: ("shell?token=".data ++ E)) =
      "/shell?token=[REDACTED]".data := by
    simp [replaceFromToken, isPrefixChars]
  rw [e, replaceFromToken_append_slash, t]

/-- Claim C29 (amended): for every base URL without a line terminator and every token,
the logged string is the endpoint URL with everything from the first `token=`
onward replaced by `token=[REDACTED]`; it is the same string for every token,
and for a base URL that does not contain `token=` it is the base URL followed
by `/shell?token=[REDACTED]`. -/
theorem logged_url_is_cut_at_token (base token : String)
    (hb : base.data.any isLineTerminator = false) :
    redactedUrl (socketUrl base token) =
      String.mk (replaceFromToken (socketUrl base token).data) ∧
    (∀ other : String, redactedUrl (socketUrl base other) = redactedUrl (socketUrl base token)) ∧
    (jsIncludes base "token=" = false →
      redactedUrl (socketUrl base token) = base ++ "/shell?token=[REDACTED]") ∧
    (∀ (f : Fetch) (r : FetchResult) (loc : Location) (w : World),
      resolveBase r loc = base → f.token = token →
      ∀ text, Effect.logUrl text ∈ (connectContinue f r loc none w).trace →
        Effect.logUrl text ∈ w.trace ∨ text = redactedUrl (socketUrl base token)) := by
  have hd : ∀ t : String, (socketUrl base t).data =
      base.data ++ "/shell?token=".data ++ (encodeURIComponent t).data := by
    intro t
    simp [socketUrl, String.data_append]
  have hn : ∀ t : String, (socketUrl base t).data.any isLineTerminator = false := by
    intro t
    rw [hd, List.any_append, List.any_append, hb, encodeURIComponent_no_terminator]
    decide
  have hr : ∀ t : String, redactedUrl (socketUrl base t) =
      String.mk (replaceFromToken (socketUrl base t).data) := by
    intro t
    simp only [redactedUrl]
    rw [redactChars_of_no_terminator _ (hn t)]
  have hi : ∀ t : String, replaceFromToken (socketUrl base t).data =
      if includesChars "token=".data base.data then replaceFromToken base.data
      else base.data ++ "/shell?token=[REDACTED]".data := by
    intro t
    rw [hd, replaceFromToken_endpoint]
  refine ⟨hr token, ?_, ?_, ?_⟩
  · intro other
    rw [hr, hr, hi, hi]
  · intro h
    have h2 : includesChars "token=".data base.data = false := h
    rw [hr, hi, h2]
    rfl
  · intro f r loc w hbase htok text hmem
    subst hbase htok
    simp only [connectContinue, World.emit, World.setCtl, World.newSock, List.mem_append,
      List.mem_singleton, List.mem_cons, List.not_mem_nil, or_false] at hmem
    rcases hmem with (hmem | hmem) | hmem
    · exact Or.inl hmem
    · exact Or.inr (by injection hmem)
    · cases hmem

/-- Witness of C29. -/
theorem logged_url_is_cut_at_token_witness :
    "ws://example.com:4008".data.any isLineTerminator = false ∧
    redactedUrl (socketUrl "ws://example.com:4008" "tok1") =
      "ws://example.com:4008" ++ "/shell?token=[REDACTED]" :=
  ⟨by decide,
    (logged_url_is_cut_at_token "ws://example.com:4008" "tok1" (by decide)).2.2.1 (by decide)⟩

end Shell
